import Mathlib

/-!
Shallow embedding of `src/spotify_mcp_server.py` (spotipy-mcp).

The repository is a single Python module of tool endpoints.  Every endpoint
has the shape: build a client from the caller's token, issue exactly one
call on the wrapped spotipy client inside a `try`, and either return the
call's result (possibly substituting a placeholder object for a falsy
result, or rewrapping it under a fixed key) or, on any raised exception,
return `{"error": "<fixed message>" + str(e)}`.

The embedding models JSON values as the inductive `JVal`, the spotipy
client as a structure holding the auth token, and the remote service as a
function `Api` from the issued call (client plus method with its forwarded
arguments) to either a response value or a raised exception's description
(`Except String JVal`).  Each Python endpoint becomes a Lean function of
the same name, translated line by line from the source.
-/

/-- JSON-like values exchanged with the service.  Numbers are modelled as
integers; no operation in the repository inspects a numeric payload. -/
inductive JVal where
  | null
  | bool (b : Bool)
  | num (n : Int)
  | str (s : String)
  | arr (items : List JVal)
  | obj (fields : List (String × JVal))

/-- Python truthiness on JSON values: `None`, `False`, `0`, `""`, `[]` and
`{}` are falsy, everything else is truthy (used by `return x if x else y`). -/
def JVal.truthy : JVal → Bool
  | .null => false
  | .bool b => b
  | .num n => n != 0
  | .str s => !s.isEmpty
  | .arr items => !items.isEmpty
  | .obj fields => !fields.isEmpty

/-- Whether a value is a JSON object (a Python mapping). -/
def JVal.isObj : JVal → Bool
  | .obj _ => true
  | _ => false

/-- Splits a character list at every occurrence of `sep`, keeping empty
groups; `[]` yields the single empty group, as Python's `str.split` does. -/
def splitChars (sep : Char) : List Char → List (List Char)
  | [] => [[]]
  | c :: cs =>
    if c = sep then [] :: splitChars sep cs
    else
      match splitChars sep cs with
      | [] => [[c]]
      | group :: rest => (c :: group) :: rest

/-- Models Python `s.split(sep)` for a one-character separator `sep`. -/
def pySplit (s : String) (sep : Char) : List String :=
  (splitChars sep s.data).map List.asString

/-- The spotipy client handle: `spotipy.Spotify(auth=token)` carries only
the bearer token it was constructed with. -/
structure Spotify where
  auth : String
deriving DecidableEq

/-- Embeds `get_spotify_client` (line 7): constructs a fresh client bound
to the supplied token. -/
def get_spotify_client (token : String) : Spotify :=
  ⟨token⟩

/-- One spotipy client method together with the argument values the
repository forwards to it.  Keyword arguments the repository omits are
recorded at spotipy's documented defaults (this only happens for the
`market` argument of `search`, left `None` by the four typed searches). -/
inductive ApiMethod where
  | album (album_id : String) (market : Option String)
  | album_tracks (album_id : String) (limit : Int) (offset : Int) (market : Option String)
  | albums (albums : List String) (market : Option String)
  | artist (artist_id : String)
  | artist_albums (artist_id : String) (album_type : Option String) (include_groups : Option String) (country : Option String) (limit : Int) (offset : Int)
  | artist_related_artists (artist_id : String)
  | artist_top_tracks (artist_id : String) (country : String)
  | artists (artists : List String)
  | audio_analysis (track_id : String)
  | audio_features (tracks : List String)
  | available_markets
  | categories (country : Option String) (locale : Option String) (limit : Int) (offset : Int)
  | category (category_id : String) (country : Option String) (locale : Option String)
  | category_playlists (category_id : String) (country : Option String) (limit : Int) (offset : Int)
  | episode (episode_id : String) (market : Option String)
  | episodes (ids : List String) (market : Option String)
  | featured_playlists (locale : Option String) (country : Option String) (timestamp : Option String) (limit : Int) (offset : Int)
  | get_audiobook (id : String) (market : Option String)
  | get_audiobook_chapters (id : String) (market : Option String) (limit : Int) (offset : Int)
  | get_audiobooks (ids : List String) (market : Option String)
  | new_releases (country : Option String) (limit : Int) (offset : Int)
  | playlist (playlist_id : String)
  | playlist_tracks (playlist_id : String) (fields : Option String) (limit : Int) (offset : Int) (market : Option String) (additional_types : Option String)
  | playlist_cover_image (playlist_id : String)
  | playlist_is_following (playlist_id : String) (user_ids : List String)
  | recommendation_genre_seeds
  | recommendations (seed_artists : Option (List String)) (seed_genres : Option (List String)) (seed_tracks : Option (List String)) (limit : Int) (market : Option String)
      (min_acousticness : Option Float) (max_acousticness : Option Float) (target_acousticness : Option Float)
      (min_danceability : Option Float) (max_danceability : Option Float) (target_danceability : Option Float)
      (min_duration_ms : Option Int) (max_duration_ms : Option Int) (target_duration_ms : Option Int)
      (min_energy : Option Float) (max_energy : Option Float) (target_energy : Option Float)
      (min_instrumentalness : Option Float) (max_instrumentalness : Option Float) (target_instrumentalness : Option Float)
      (min_key : Option Int) (max_key : Option Int) (target_key : Option Int)
      (min_liveness : Option Float) (max_liveness : Option Float) (target_liveness : Option Float)
      (min_loudness : Option Float) (max_loudness : Option Float) (target_loudness : Option Float)
      (min_mode : Option Int) (max_mode : Option Int) (target_mode : Option Int)
      (min_popularity : Option Int) (max_popularity : Option Int) (target_popularity : Option Int)
      (min_speechiness : Option Float) (max_speechiness : Option Float) (target_speechiness : Option Float)
      (min_tempo : Option Float) (max_tempo : Option Float) (target_tempo : Option Float)
      (min_time_signature : Option Int) (max_time_signature : Option Int) (target_time_signature : Option Int)
      (min_valence : Option Float) (max_valence : Option Float) (target_valence : Option Float)
  | search (q : String) (limit : Int) (offset : Int) (type : String) (market : Option String)
  | search_markets (q : String) (limit : Int) (offset : Int) (type : String) (markets : Option (List String)) (total : Option Int)
  | show (show_id : String) (market : Option String)
  | show_episodes (show_id : String) (limit : Int) (offset : Int) (market : Option String)
  | shows (ids : List String) (market : Option String)
  | track (track_id : String)
  | tracks (ids : List String) (market : Option String)
  | user (user_id : String)
  | user_playlists (user_id : String) (limit : Int) (offset : Int)
  | current_playback (market : Option String) (additional_types : Option String)
  | current_user
  | current_user_followed_artists (limit : Int) (after : Option String)
  | current_user_following_artists (ids : List String)
  | current_user_following_users (ids : List String)
  | current_user_playing_track
  | current_user_playlists (limit : Int) (offset : Int)
  | current_user_recently_played (limit : Int) (after : Option Int) (before : Option Int)
  | current_user_saved_albums (limit : Int) (offset : Int) (market : Option String)
  | current_user_saved_albums_contains (albums : List String)
  | current_user_saved_episodes (limit : Int) (offset : Int) (market : Option String)
  | current_user_saved_episodes_contains (episodes : List String)
  | current_user_saved_shows (limit : Int) (offset : Int) (market : Option String)
  | current_user_saved_shows_contains (shows : List String)
  | current_user_saved_tracks (limit : Int) (offset : Int) (market : Option String)
  | current_user_saved_tracks_contains (tracks : List String)
  | current_user_top_artists (limit : Int) (offset : Int) (time_range : String)
  | current_user_top_tracks (limit : Int) (offset : Int) (time_range : String)
  | currently_playing (market : Option String) (additional_types : Option String)
  | devices
  | playlist_items (playlist_id : String) (fields : Option String) (limit : Int) (offset : Int) (market : Option String) (additional_types : List String)
  | queue
  | user_playlist (user_id : String) (playlist_id : String) (fields : Option String) (market : Option String)

/-- A delegated call: the client handle it is issued through, and the
method with its forwarded arguments. -/
structure ApiCall where
  client : Spotify
  method : ApiMethod

/-- The remote service: maps each delegated call to a structured response
or a raised exception's description. -/
def Api : Type :=
  ApiCall → Except String JVal

/-- Embeds `get_album_info` (lines 10-28). -/
def get_album_info (api : Api) (token : String) (album_id : String) (market : Option String) : JVal :=
  let spotify := get_spotify_client token
  match api ⟨spotify, .album album_id market⟩ with
  | .ok album => album
  | .error e => JVal.obj [("error", JVal.str ("Failed to get album info: " ++ e))]

/-- Embeds `get_album_tracks` (lines 30-50). -/
def get_album_tracks (api : Api) (token : String) (album_id : String) (limit : Int) (offset : Int) (market : Option String) : JVal :=
  let spotify := get_spotify_client token
  match api ⟨spotify, .album_tracks album_id limit offset market⟩ with
  | .ok results => results
  | .error e => JVal.obj [("error", JVal.str ("Failed to get album tracks: " ++ e))]

/-- Embeds `get_albums` (lines 52-71). -/
def get_albums (api : Api) (token : String) (albums : List String) (market : Option String) : JVal :=
  let spotify := get_spotify_client token
  match api ⟨spotify, .albums albums market⟩ with
  | .ok results => results
  | .error e => JVal.obj [("error", JVal.str ("Failed to get albums: " ++ e))]

/-- Embeds `get_artist_info` (lines 73-91). -/
def get_artist_info (api : Api) (token : String) (artist_id : String) : JVal :=
  let spotify := get_spotify_client token
  match api ⟨spotify, .artist artist_id⟩ with
  | .ok artist => artist
  | .error e => JVal.obj [("error", JVal.str ("Failed to get artist info: " ++ e))]

/-- Embeds `get_artist_albums` (lines 93-114). -/
def get_artist_albums (api : Api) (token : String) (artist_id : String) (album_type : Option String) (include_groups : Option String) (country : Option String) (limit : Int) (offset : Int) : JVal :=
  let spotify := get_spotify_client token
  match api ⟨spotify, .artist_albums artist_id album_type include_groups country limit offset⟩ with
  | .ok results => results
  | .error e => JVal.obj [("error", JVal.str ("Failed to get artist albums: " ++ e))]

/-- Embeds `get_artist_related_artists` (lines 116-134). -/
def get_artist_related_artists (api : Api) (token : String) (artist_id : String) : JVal :=
  let spotify := get_spotify_client token
  match api ⟨spotify, .artist_related_artists artist_id⟩ with
  | .ok results => results
  | .error e => JVal.obj [("error", JVal.str ("Failed to get related artists: " ++ e))]

/-- Embeds `get_artist_top_tracks` (lines 136-155). -/
def get_artist_top_tracks (api : Api) (token : String) (artist_id : String) (country : String) : JVal :=
  let spotify := get_spotify_client token
  match api ⟨spotify, .artist_top_tracks artist_id country⟩ with
  | .ok results => results
  | .error e => JVal.obj [("error", JVal.str ("Failed to get artist top tracks: " ++ e))]

/-- Embeds `get_artists` (lines 157-175). -/
def get_artists (api : Api) (token : String) (artists : List String) : JVal :=
  let spotify := get_spotify_client token
  match api ⟨spotify, .artists artists⟩ with
  | .ok results => results
  | .error e => JVal.obj [("error", JVal.str ("Failed to get artists: " ++ e))]

/-- Embeds `get_audio_analysis` (lines 177-195). -/
def get_audio_analysis (api : Api) (token : String) (track_id : String) : JVal :=
  let spotify := get_spotify_client token
  match api ⟨spotify, .audio_analysis track_id⟩ with
  | .ok analysis => analysis
  | .error e => JVal.obj [("error", JVal.str ("Failed to get audio analysis: " ++ e))]

/-- Embeds `get_audio_features` (lines 197-215): substitutes the
placeholder `{"audio_features": None}` for a falsy response. -/
def get_audio_features (api : Api) (token : String) (tracks : List String) : JVal :=
  let spotify := get_spotify_client token
  match api ⟨spotify, .audio_features tracks⟩ with
  | .ok features => if features.truthy then features else JVal.obj [("audio_features", JVal.null)]
  | .error e => JVal.obj [("error", JVal.str ("Failed to get audio features: " ++ e))]

/-- Embeds `get_available_markets` (lines 217-233). -/
def get_available_markets (api : Api) (token : String) : JVal :=
  let spotify := get_spotify_client token
  match api ⟨spotify, .available_markets⟩ with
  | .ok markets => markets
  | .error e => JVal.obj [("error", JVal.str ("Failed to get available markets: " ++ e))]

/-- Embeds `get_categories` (lines 235-255). -/
def get_categories (api : Api) (token : String) (country : Option String) (locale : Option String) (limit : Int) (offset : Int) : JVal :=
  let spotify := get_spotify_client token
  match api ⟨spotify, .categories country locale limit offset⟩ with
  | .ok results => results
  | .error e => JVal.obj [("error", JVal.str ("Failed to get categories: " ++ e))]

/-- Embeds `get_category` (lines 257-276). -/
def get_category (api : Api) (token : String) (category_id : String) (country : Option String) (locale : Option String) : JVal :=
  let spotify := get_spotify_client token
  match api ⟨spotify, .category category_id country locale⟩ with
  | .ok category => category
  | .error e => JVal.obj [("error", JVal.str ("Failed to get category: " ++ e))]

/-- Embeds `get_category_playlists` (lines 278-299). -/
def get_category_playlists (api : Api) (token : String) (category_id : String) (country : Option String) (limit : Int) (offset : Int) : JVal :=
  let spotify := get_spotify_client token
  match api ⟨spotify, .category_playlists category_id country limit offset⟩ with
  | .ok results => results
  | .error e => JVal.obj [("error", JVal.str ("Failed to get category playlists: " ++ e))]

/-- Embeds `get_episode` (lines 301-320). -/
def get_episode (api : Api) (token : String) (episode_id : String) (market : Option String) : JVal :=
  let spotify := get_spotify_client token
  match api ⟨spotify, .episode episode_id market⟩ with
  | .ok episode => episode
  | .error e => JVal.obj [("error", JVal.str ("Failed to get episode: " ++ e))]

/-- Embeds `get_episodes` (lines 322-341). -/
def get_episodes (api : Api) (token : String) (ids : List String) (market : Option String) : JVal :=
  let spotify := get_spotify_client token
  match api ⟨spotify, .episodes ids market⟩ with
  | .ok results => results
  | .error e => JVal.obj [("error", JVal.str ("Failed to get episodes: " ++ e))]

/-- Embeds `get_featured_playlists` (lines 343-363). -/
def get_featured_playlists (api : Api) (token : String) (locale : Option String) (country : Option String) (timestamp : Option String) (limit : Int) (offset : Int) : JVal :=
  let spotify := get_spotify_client token
  match api ⟨spotify, .featured_playlists locale country timestamp limit offset⟩ with
  | .ok results => results
  | .error e => JVal.obj [("error", JVal.str ("Failed to get featured playlists: " ++ e))]

/-- Embeds `get_audiobook` (lines 365-384). -/
def get_audiobook (api : Api) (token : String) (id : String) (market : Option String) : JVal :=
  let spotify := get_spotify_client token
  match api ⟨spotify, .get_audiobook id market⟩ with
  | .ok audiobook => audiobook
  | .error e => JVal.obj [("error", JVal.str ("Failed to get audiobook: " ++ e))]

/-- Embeds `get_audiobook_chapters` (lines 386-407). -/
def get_audiobook_chapters (api : Api) (token : String) (id : String) (market : Option String) (limit : Int) (offset : Int) : JVal :=
  let spotify := get_spotify_client token
  match api ⟨spotify, .get_audiobook_chapters id market limit offset⟩ with
  | .ok results => results
  | .error e => JVal.obj [("error", JVal.str ("Failed to get audiobook chapters: " ++ e))]

/-- Embeds `get_audiobooks` (lines 409-428). -/
def get_audiobooks (api : Api) (token : String) (ids : List String) (market : Option String) : JVal :=
  let spotify := get_spotify_client token
  match api ⟨spotify, .get_audiobooks ids market⟩ with
  | .ok results => results
  | .error e => JVal.obj [("error", JVal.str ("Failed to get audiobooks: " ++ e))]

/-- Embeds `get_new_releases` (lines 430-450). -/
def get_new_releases (api : Api) (token : String) (country : Option String) (limit : Int) (offset : Int) : JVal :=
  let spotify := get_spotify_client token
  match api ⟨spotify, .new_releases country limit offset⟩ with
  | .ok results => results
  | .error e => JVal.obj [("error", JVal.str ("Failed to get new releases: " ++ e))]

/-- Embeds `get_playlist_info` (lines 452-470). -/
def get_playlist_info (api : Api) (token : String) (playlist_id : String) : JVal :=
  let spotify := get_spotify_client token
  match api ⟨spotify, .playlist playlist_id⟩ with
  | .ok playlist => playlist
  | .error e => JVal.obj [("error", JVal.str ("Failed to get playlist info: " ++ e))]

/-- Embeds `get_playlist_tracks` (lines 472-492). -/
def get_playlist_tracks (api : Api) (token : String) (playlist_id : String) (fields : Option String) (limit : Int) (offset : Int) (market : Option String) (additional_types : Option String) : JVal :=
  let spotify := get_spotify_client token
  match api ⟨spotify, .playlist_tracks playlist_id fields limit offset market additional_types⟩ with
  | .ok results => results
  | .error e => JVal.obj [("error", JVal.str ("Failed to get playlist tracks: " ++ e))]

/-- Embeds `playlist_cover_image` (lines 494-512): rewraps the response
list under the fixed key `images`. -/
def playlist_cover_image (api : Api) (token : String) (playlist_id : String) : JVal :=
  let spotify := get_spotify_client token
  match api ⟨spotify, .playlist_cover_image playlist_id⟩ with
  | .ok result => JVal.obj [("images", result)]
  | .error e => JVal.obj [("error", JVal.str ("Failed to get playlist cover image: " ++ e))]

/-- Embeds `playlist_is_following` (lines 514-533): rewraps the response
under the fixed key `following`. -/
def playlist_is_following (api : Api) (token : String) (playlist_id : String) (user_ids : List String) : JVal :=
  let spotify := get_spotify_client token
  match api ⟨spotify, .playlist_is_following playlist_id user_ids⟩ with
  | .ok result => JVal.obj [("following", result)]
  | .error e => JVal.obj [("error", JVal.str ("Failed to check playlist following status: " ++ e))]

/-- Embeds `get_available_genres` (lines 535-552). -/
def get_available_genres (api : Api) (token : String) : JVal :=
  let spotify := get_spotify_client token
  match api ⟨spotify, .recommendation_genre_seeds⟩ with
  | .ok genres => genres
  | .error e => JVal.obj [("error", JVal.str ("Failed to get available genres: " ++ e))]

/-- Embeds `get_recommendations` (lines 554-643): forwards every tuning
parameter unchanged to `spotify.recommendations`. -/
def get_recommendations (api : Api) (token : String)
    (seed_artists : Option (List String)) (seed_genres : Option (List String)) (seed_tracks : Option (List String)) (limit : Int) (market : Option String)
    (min_acousticness : Option Float) (max_acousticness : Option Float) (target_acousticness : Option Float)
    (min_danceability : Option Float) (max_danceability : Option Float) (target_danceability : Option Float)
    (min_duration_ms : Option Int) (max_duration_ms : Option Int) (target_duration_ms : Option Int)
    (min_energy : Option Float) (max_energy : Option Float) (target_energy : Option Float)
    (min_instrumentalness : Option Float) (max_instrumentalness : Option Float) (target_instrumentalness : Option Float)
    (min_key : Option Int) (max_key : Option Int) (target_key : Option Int)
    (min_liveness : Option Float) (max_liveness : Option Float) (target_liveness : Option Float)
    (min_loudness : Option Float) (max_loudness : Option Float) (target_loudness : Option Float)
    (min_mode : Option Int) (max_mode : Option Int) (target_mode : Option Int)
    (min_popularity : Option Int) (max_popularity : Option Int) (target_popularity : Option Int)
    (min_speechiness : Option Float) (max_speechiness : Option Float) (target_speechiness : Option Float)
    (min_tempo : Option Float) (max_tempo : Option Float) (target_tempo : Option Float)
    (min_time_signature : Option Int) (max_time_signature : Option Int) (target_time_signature : Option Int)
    (min_valence : Option Float) (max_valence : Option Float) (target_valence : Option Float) : JVal :=
  let spotify := get_spotify_client token
  match api ⟨spotify, .recommendations seed_artists seed_genres seed_tracks limit market
      min_acousticness max_acousticness target_acousticness
      min_danceability max_danceability target_danceability
      min_duration_ms max_duration_ms target_duration_ms
      min_energy max_energy target_energy
      min_instrumentalness max_instrumentalness target_instrumentalness
      min_key max_key target_key
      min_liveness max_liveness target_liveness
      min_loudness max_loudness target_loudness
      min_mode max_mode target_mode
      min_popularity max_popularity target_popularity
      min_speechiness max_speechiness target_speechiness
      min_tempo max_tempo target_tempo
      min_time_signature max_time_signature target_time_signature
      min_valence max_valence target_valence⟩ with
  | .ok results => results
  | .error e => JVal.obj [("error", JVal.str ("Failed to get recommendations: " ++ e))]

/-- Embeds `search_tracks` (lines 645-665): calls `spotify.search` with the
fixed type `"track"`; `market` is spotipy's default `None`. -/
def search_tracks (api : Api) (token : String) (query : String) (limit : Int) (offset : Int) : JVal :=
  let spotify := get_spotify_client token
  match api ⟨spotify, .search query limit offset "track" none⟩ with
  | .ok results => results
  | .error e => JVal.obj [("error", JVal.str ("Track search failed: " ++ e))]

/-- Embeds `search_artists` (lines 667-687). -/
def search_artists (api : Api) (token : String) (query : String) (limit : Int) (offset : Int) : JVal :=
  let spotify := get_spotify_client token
  match api ⟨spotify, .search query limit offset "artist" none⟩ with
  | .ok results => results
  | .error e => JVal.obj [("error", JVal.str ("Artist search failed: " ++ e))]

/-- Embeds `search_albums` (lines 689-709). -/
def search_albums (api : Api) (token : String) (query : String) (limit : Int) (offset : Int) : JVal :=
  let spotify := get_spotify_client token
  match api ⟨spotify, .search query limit offset "album" none⟩ with
  | .ok results => results
  | .error e => JVal.obj [("error", JVal.str ("Album search failed: " ++ e))]

/-- Embeds `search_playlists` (lines 711-731). -/
def search_playlists (api : Api) (token : String) (query : String) (limit : Int) (offset : Int) : JVal :=
  let spotify := get_spotify_client token
  match api ⟨spotify, .search query limit offset "playlist" none⟩ with
  | .ok results => results
  | .error e => JVal.obj [("error", JVal.str ("Playlist search failed: " ++ e))]

/-- Embeds `get_show` (lines 733-752). -/
def get_show (api : Api) (token : String) (show_id : String) (market : Option String) : JVal :=
  let spotify := get_spotify_client token
  match api ⟨spotify, .show show_id market⟩ with
  | .ok result => result
  | .error e => JVal.obj [("error", JVal.str ("Failed to get show: " ++ e))]

/-- Embeds `get_show_episodes` (lines 754-775). -/
def get_show_episodes (api : Api) (token : String) (show_id : String) (limit : Int) (offset : Int) (market : Option String) : JVal :=
  let spotify := get_spotify_client token
  match api ⟨spotify, .show_episodes show_id limit offset market⟩ with
  | .ok results => results
  | .error e => JVal.obj [("error", JVal.str ("Failed to get show episodes: " ++ e))]

/-- Embeds `get_shows` (lines 777-796). -/
def get_shows (api : Api) (token : String) (ids : List String) (market : Option String) : JVal :=
  let spotify := get_spotify_client token
  match api ⟨spotify, .shows ids market⟩ with
  | .ok results => results
  | .error e => JVal.obj [("error", JVal.str ("Failed to get shows: " ++ e))]

/-- Embeds `get_track_info` (lines 798-816). -/
def get_track_info (api : Api) (token : String) (track_id : String) : JVal :=
  let spotify := get_spotify_client token
  match api ⟨spotify, .track track_id⟩ with
  | .ok track => track
  | .error e => JVal.obj [("error", JVal.str ("Failed to get track info: " ++ e))]

/-- Embeds `get_tracks` (lines 818-837). -/
def get_tracks (api : Api) (token : String) (ids : List String) (market : Option String) : JVal :=
  let spotify := get_spotify_client token
  match api ⟨spotify, .tracks ids market⟩ with
  | .ok results => results
  | .error e => JVal.obj [("error", JVal.str ("Failed to get tracks: " ++ e))]

/-- Embeds `get_user` (lines 839-857). -/
def get_user (api : Api) (token : String) (user_id : String) : JVal :=
  let spotify := get_spotify_client token
  match api ⟨spotify, .user user_id⟩ with
  | .ok user => user
  | .error e => JVal.obj [("error", JVal.str ("Failed to get user: " ++ e))]

/-- Embeds `get_user_playlists` (lines 859-879). -/
def get_user_playlists (api : Api) (token : String) (user_id : String) (limit : Int) (offset : Int) : JVal :=
  let spotify := get_spotify_client token
  match api ⟨spotify, .user_playlists user_id limit offset⟩ with
  | .ok results => results
  | .error e => JVal.obj [("error", JVal.str ("Failed to get user playlists: " ++ e))]

/-- Embeds `get_current_playback` (lines 881-900): substitutes the
placeholder `{"playback": None}` for a falsy response. -/
def get_current_playback (api : Api) (token : String) (market : Option String) (additional_types : Option String) : JVal :=
  let spotify := get_spotify_client token
  match api ⟨spotify, .current_playback market additional_types⟩ with
  | .ok result => if result.truthy then result else JVal.obj [("playback", JVal.null)]
  | .error e => JVal.obj [("error", JVal.str ("Failed to get current playback: " ++ e))]

/-- Embeds `get_current_user` (lines 902-919). -/
def get_current_user (api : Api) (token : String) : JVal :=
  let spotify := get_spotify_client token
  match api ⟨spotify, .current_user⟩ with
  | .ok user => user
  | .error e => JVal.obj [("error", JVal.str ("Failed to get current user: " ++ e))]

/-- Embeds `get_current_user_followed_artists` (lines 921-940). -/
def get_current_user_followed_artists (api : Api) (token : String) (limit : Int) (after : Option String) : JVal :=
  let spotify := get_spotify_client token
  match api ⟨spotify, .current_user_followed_artists limit after⟩ with
  | .ok results => results
  | .error e => JVal.obj [("error", JVal.str ("Failed to get followed artists: " ++ e))]

/-- Embeds `check_current_user_following_artists` (lines 942-960): rewraps
the response under the fixed key `following`. -/
def check_current_user_following_artists (api : Api) (token : String) (ids : List String) : JVal :=
  let spotify := get_spotify_client token
  match api ⟨spotify, .current_user_following_artists ids⟩ with
  | .ok result => JVal.obj [("following", result)]
  | .error e => JVal.obj [("error", JVal.str ("Failed to check if following artists: " ++ e))]

/-- Embeds `check_current_user_following_users` (lines 962-980): rewraps
the response under the fixed key `following`. -/
def check_current_user_following_users (api : Api) (token : String) (ids : List String) : JVal :=
  let spotify := get_spotify_client token
  match api ⟨spotify, .current_user_following_users ids⟩ with
  | .ok result => JVal.obj [("following", result)]
  | .error e => JVal.obj [("error", JVal.str ("Failed to check if following users: " ++ e))]

/-- Embeds `get_current_user_playing_track` (lines 982-999): substitutes
the placeholder `{"track": None}` for a falsy response. -/
def get_current_user_playing_track (api : Api) (token : String) : JVal :=
  let spotify := get_spotify_client token
  match api ⟨spotify, .current_user_playing_track⟩ with
  | .ok result => if result.truthy then result else JVal.obj [("track", JVal.null)]
  | .error e => JVal.obj [("error", JVal.str ("Failed to get currently playing track: " ++ e))]

/-- Embeds `get_current_user_playlists` (lines 1001-1020). -/
def get_current_user_playlists (api : Api) (token : String) (limit : Int) (offset : Int) : JVal :=
  let spotify := get_spotify_client token
  match api ⟨spotify, .current_user_playlists limit offset⟩ with
  | .ok results => results
  | .error e => JVal.obj [("error", JVal.str ("Failed to get current user playlists: " ++ e))]

/-- Embeds `get_current_user_recently_played` (lines 1022-1042). -/
def get_current_user_recently_played (api : Api) (token : String) (limit : Int) (after : Option Int) (before : Option Int) : JVal :=
  let spotify := get_spotify_client token
  match api ⟨spotify, .current_user_recently_played limit after before⟩ with
  | .ok results => results
  | .error e => JVal.obj [("error", JVal.str ("Failed to get recently played tracks: " ++ e))]

/-- Embeds `get_current_user_saved_albums` (lines 1044-1064). -/
def get_current_user_saved_albums (api : Api) (token : String) (limit : Int) (offset : Int) (market : Option String) : JVal :=
  let spotify := get_spotify_client token
  match api ⟨spotify, .current_user_saved_albums limit offset market⟩ with
  | .ok results => results
  | .error e => JVal.obj [("error", JVal.str ("Failed to get saved albums: " ++ e))]

/-- Embeds `check_current_user_saved_albums` (lines 1066-1084): rewraps
the response under the fixed key `saved`. -/
def check_current_user_saved_albums (api : Api) (token : String) (albums : List String) : JVal :=
  let spotify := get_spotify_client token
  match api ⟨spotify, .current_user_saved_albums_contains albums⟩ with
  | .ok result => JVal.obj [("saved", result)]
  | .error e => JVal.obj [("error", JVal.str ("Failed to check saved albums: " ++ e))]

/-- Embeds `get_current_user_saved_episodes` (lines 1086-1106). -/
def get_current_user_saved_episodes (api : Api) (token : String) (limit : Int) (offset : Int) (market : Option String) : JVal :=
  let spotify := get_spotify_client token
  match api ⟨spotify, .current_user_saved_episodes limit offset market⟩ with
  | .ok results => results
  | .error e => JVal.obj [("error", JVal.str ("Failed to get saved episodes: " ++ e))]

/-- Embeds `check_current_user_saved_episodes` (lines 1108-1126): rewraps
the response under the fixed key `saved`. -/
def check_current_user_saved_episodes (api : Api) (token : String) (episodes : List String) : JVal :=
  let spotify := get_spotify_client token
  match api ⟨spotify, .current_user_saved_episodes_contains episodes⟩ with
  | .ok result => JVal.obj [("saved", result)]
  | .error e => JVal.obj [("error", JVal.str ("Failed to check saved episodes: " ++ e))]

/-- Embeds `get_current_user_saved_shows` (lines 1128-1148). -/
def get_current_user_saved_shows (api : Api) (token : String) (limit : Int) (offset : Int) (market : Option String) : JVal :=
  let spotify := get_spotify_client token
  match api ⟨spotify, .current_user_saved_shows limit offset market⟩ with
  | .ok results => results
  | .error e => JVal.obj [("error", JVal.str ("Failed to get saved shows: " ++ e))]

/-- Embeds `check_current_user_saved_shows` (lines 1150-1168): rewraps
the response under the fixed key `saved`. -/
def check_current_user_saved_shows (api : Api) (token : String) (shows : List String) : JVal :=
  let spotify := get_spotify_client token
  match api ⟨spotify, .current_user_saved_shows_contains shows⟩ with
  | .ok result => JVal.obj [("saved", result)]
  | .error e => JVal.obj [("error", JVal.str ("Failed to check saved shows: " ++ e))]

/-- Embeds `get_current_user_saved_tracks` (lines 1170-1190). -/
def get_current_user_saved_tracks (api : Api) (token : String) (limit : Int) (offset : Int) (market : Option String) : JVal :=
  let spotify := get_spotify_client token
  match api ⟨spotify, .current_user_saved_tracks limit offset market⟩ with
  | .ok results => results
  | .error e => JVal.obj [("error", JVal.str ("Failed to get saved tracks: " ++ e))]

/-- Embeds `check_current_user_saved_tracks` (lines 1192-1210): rewraps
the response under the fixed key `saved`. -/
def check_current_user_saved_tracks (api : Api) (token : String) (tracks : List String) : JVal :=
  let spotify := get_spotify_client token
  match api ⟨spotify, .current_user_saved_tracks_contains tracks⟩ with
  | .ok result => JVal.obj [("saved", result)]
  | .error e => JVal.obj [("error", JVal.str ("Failed to check saved tracks: " ++ e))]

/-- Embeds `get_current_user_top_artists` (lines 1212-1232). -/
def get_current_user_top_artists (api : Api) (token : String) (limit : Int) (offset : Int) (time_range : String) : JVal :=
  let spotify := get_spotify_client token
  match api ⟨spotify, .current_user_top_artists limit offset time_range⟩ with
  | .ok results => results
  | .error e => JVal.obj [("error", JVal.str ("Failed to get top artists: " ++ e))]

/-- Embeds `get_current_user_top_tracks` (lines 1234-1254). -/
def get_current_user_top_tracks (api : Api) (token : String) (limit : Int) (offset : Int) (time_range : String) : JVal :=
  let spotify := get_spotify_client token
  match api ⟨spotify, .current_user_top_tracks limit offset time_range⟩ with
  | .ok results => results
  | .error e => JVal.obj [("error", JVal.str ("Failed to get top tracks: " ++ e))]

/-- Embeds `get_currently_playing` (lines 1256-1275): substitutes the
placeholder `{"currently_playing": None}` for a falsy response. -/
def get_currently_playing (api : Api) (token : String) (market : Option String) (additional_types : Option String) : JVal :=
  let spotify := get_spotify_client token
  match api ⟨spotify, .currently_playing market additional_types⟩ with
  | .ok result => if result.truthy then result else JVal.obj [("currently_playing", JVal.null)]
  | .error e => JVal.obj [("error", JVal.str ("Failed to get currently playing: " ++ e))]

/-- Embeds `get_devices` (lines 1277-1294). -/
def get_devices (api : Api) (token : String) : JVal :=
  let spotify := get_spotify_client token
  match api ⟨spotify, .devices⟩ with
  | .ok result => result
  | .error e => JVal.obj [("error", JVal.str ("Failed to get devices: " ++ e))]

/-- Embeds `get_playlist_items` (lines 1296-1320): splits the
`additional_types` string on commas into a tuple before forwarding,
defaulting to `("track", "episode")` when the string is empty. -/
def get_playlist_items (api : Api) (token : String) (playlist_id : String) (fields : Option String) (limit : Int) (offset : Int) (market : Option String) (additional_types : String) : JVal :=
  let spotify := get_spotify_client token
  let additional_types_tuple := if !additional_types.isEmpty then pySplit additional_types ',' else ["track", "episode"]
  match api ⟨spotify, .playlist_items playlist_id fields limit offset market additional_types_tuple⟩ with
  | .ok results => results
  | .error e => JVal.obj [("error", JVal.str ("Failed to get playlist items: " ++ e))]

/-- Embeds `get_queue` (lines 1322-1339). -/
def get_queue (api : Api) (token : String) : JVal :=
  let spotify := get_spotify_client token
  match api ⟨spotify, .queue⟩ with
  | .ok result => result
  | .error e => JVal.obj [("error", JVal.str ("Failed to get queue: " ++ e))]

/-- Embeds `search_general` (lines 1341-1363). -/
def search_general (api : Api) (token : String) (query : String) (limit : Int) (offset : Int) (type : String) (market : Option String) : JVal :=
  let spotify := get_spotify_client token
  match api ⟨spotify, .search query limit offset type market⟩ with
  | .ok results => results
  | .error e => JVal.obj [("error", JVal.str ("Search failed: " ++ e))]

/-- Embeds `search_markets` (lines 1365-1388). -/
def search_markets (api : Api) (token : String) (query : String) (limit : Int) (offset : Int) (type : String) (markets : Option (List String)) (total : Option Int) : JVal :=
  let spotify := get_spotify_client token
  match api ⟨spotify, .search_markets query limit offset type markets total⟩ with
  | .ok results => results
  | .error e => JVal.obj [("error", JVal.str ("Multi-market search failed: " ++ e))]

/-- Embeds `get_user_playlist` (lines 1390-1411). -/
def get_user_playlist (api : Api) (token : String) (user_id : String) (playlist_id : String) (fields : Option String) (market : Option String) : JVal :=
  let spotify := get_spotify_client token
  match api ⟨spotify, .user_playlist user_id playlist_id fields market⟩ with
  | .ok result => result
  | .error e => JVal.obj [("error", JVal.str ("Failed to get user playlist: " ++ e))]

/-- One invocation of one operation: the operation's name as a constructor
together with the caller-supplied token and typed parameters.  This is the
domain over which the "for every operation" properties are stated. -/
inductive OpArgs where
  | get_album_info (token : String) (album_id : String) (market : Option String)
  | get_album_tracks (token : String) (album_id : String) (limit : Int) (offset : Int) (market : Option String)
  | get_albums (token : String) (albums : List String) (market : Option String)
  | get_artist_info (token : String) (artist_id : String)
  | get_artist_albums (token : String) (artist_id : String) (album_type : Option String) (include_groups : Option String) (country : Option String) (limit : Int) (offset : Int)
  | get_artist_related_artists (token : String) (artist_id : String)
  | get_artist_top_tracks (token : String) (artist_id : String) (country : String)
  | get_artists (token : String) (artists : List String)
  | get_audio_analysis (token : String) (track_id : String)
  | get_audio_features (token : String) (tracks : List String)
  | get_available_markets (token : String)
  | get_categories (token : String) (country : Option String) (locale : Option String) (limit : Int) (offset : Int)
  | get_category (token : String) (category_id : String) (country : Option String) (locale : Option String)
  | get_category_playlists (token : String) (category_id : String) (country : Option String) (limit : Int) (offset : Int)
  | get_episode (token : String) (episode_id : String) (market : Option String)
  | get_episodes (token : String) (ids : List String) (market : Option String)
  | get_featured_playlists (token : String) (locale : Option String) (country : Option String) (timestamp : Option String) (limit : Int) (offset : Int)
  | get_audiobook (token : String) (id : String) (market : Option String)
  | get_audiobook_chapters (token : String) (id : String) (market : Option String) (limit : Int) (offset : Int)
  | get_audiobooks (token : String) (ids : List String) (market : Option String)
  | get_new_releases (token : String) (country : Option String) (limit : Int) (offset : Int)
  | get_playlist_info (token : String) (playlist_id : String)
  | get_playlist_tracks (token : String) (playlist_id : String) (fields : Option String) (limit : Int) (offset : Int) (market : Option String) (additional_types : Option String)
  | playlist_cover_image (token : String) (playlist_id : String)
  | playlist_is_following (token : String) (playlist_id : String) (user_ids : List String)
  | get_available_genres (token : String)
  | get_recommendations (token : String)
      (seed_artists : Option (List String)) (seed_genres : Option (List String)) (seed_tracks : Option (List String)) (limit : Int) (market : Option String)
      (min_acousticness : Option Float) (max_acousticness : Option Float) (target_acousticness : Option Float)
      (min_danceability : Option Float) (max_danceability : Option Float) (target_danceability : Option Float)
      (min_duration_ms : Option Int) (max_duration_ms : Option Int) (target_duration_ms : Option Int)
      (min_energy : Option Float) (max_energy : Option Float) (target_energy : Option Float)
      (min_instrumentalness : Option Float) (max_instrumentalness : Option Float) (target_instrumentalness : Option Float)
      (min_key : Option Int) (max_key : Option Int) (target_key : Option Int)
      (min_liveness : Option Float) (max_liveness : Option Float) (target_liveness : Option Float)
      (min_loudness : Option Float) (max_loudness : Option Float) (target_loudness : Option Float)
      (min_mode : Option Int) (max_mode : Option Int) (target_mode : Option Int)
      (min_popularity : Option Int) (max_popularity : Option Int) (target_popularity : Option Int)
      (min_speechiness : Option Float) (max_speechiness : Option Float) (target_speechiness : Option Float)
      (min_tempo : Option Float) (max_tempo : Option Float) (target_tempo : Option Float)
      (min_time_signature : Option Int) (max_time_signature : Option Int) (target_time_signature : Option Int)
      (min_valence : Option Float) (max_valence : Option Float) (target_valence : Option Float)
  | search_tracks (token : String) (query : String) (limit : Int) (offset : Int)
  | search_artists (token : String) (query : String) (limit : Int) (offset : Int)
  | search_albums (token : String) (query : String) (limit : Int) (offset : Int)
  | search_playlists (token : String) (query : String) (limit : Int) (offset : Int)
  | get_show (token : String) (show_id : String) (market : Option String)
  | get_show_episodes (token : String) (show_id : String) (limit : Int) (offset : Int) (market : Option String)
  | get_shows (token : String) (ids : List String) (market : Option String)
  | get_track_info (token : String) (track_id : String)
  | get_tracks (token : String) (ids : List String) (market : Option String)
  | get_user (token : String) (user_id : String)
  | get_user_playlists (token : String) (user_id : String) (limit : Int) (offset : Int)
  | get_current_playback (token : String) (market : Option String) (additional_types : Option String)
  | get_current_user (token : String)
  | get_current_user_followed_artists (token : String) (limit : Int) (after : Option String)
  | check_current_user_following_artists (token : String) (ids : List String)
  | check_current_user_following_users (token : String) (ids : List String)
  | get_current_user_playing_track (token : String)
  | get_current_user_playlists (token : String) (limit : Int) (offset : Int)
  | get_current_user_recently_played (token : String) (limit : Int) (after : Option Int) (before : Option Int)
  | get_current_user_saved_albums (token : String) (limit : Int) (offset : Int) (market : Option String)
  | check_current_user_saved_albums (token : String) (albums : List String)
  | get_current_user_saved_episodes (token : String) (limit : Int) (offset : Int) (market : Option String)
  | check_current_user_saved_episodes (token : String) (episodes : List String)
  | get_current_user_saved_shows (token : String) (limit : Int) (offset : Int) (market : Option String)
  | check_current_user_saved_shows (token : String) (shows : List String)
  | get_current_user_saved_tracks (token : String) (limit : Int) (offset : Int) (market : Option String)
  | check_current_user_saved_tracks (token : String) (tracks : List String)
  | get_current_user_top_artists (token : String) (limit : Int) (offset : Int) (time_range : String)
  | get_current_user_top_tracks (token : String) (limit : Int) (offset : Int) (time_range : String)
  | get_currently_playing (token : String) (market : Option String) (additional_types : Option String)
  | get_devices (token : String)
  | get_playlist_items (token : String) (playlist_id : String) (fields : Option String) (limit : Int) (offset : Int) (market : Option String) (additional_types : String)
  | get_queue (token : String)
  | search_general (token : String) (query : String) (limit : Int) (offset : Int) (type : String) (market : Option String)
  | search_markets (token : String) (query : String) (limit : Int) (offset : Int) (type : String) (markets : Option (List String)) (total : Option Int)
  | get_user_playlist (token : String) (user_id : String) (playlist_id : String) (fields : Option String) (market : Option String)

/-- Dispatches an invocation to the embedded operation of the same name. -/
def runOp (api : Api) : OpArgs → JVal
  | .get_album_info t a m => get_album_info api t a m
  | .get_album_tracks t a l o m => get_album_tracks api t a l o m
  | .get_albums t a m => get_albums api t a m
  | .get_artist_info t a => get_artist_info api t a
  | .get_artist_albums t a b g c l o => get_artist_albums api t a b g c l o
  | .get_artist_related_artists t a => get_artist_related_artists api t a
  | .get_artist_top_tracks t a c => get_artist_top_tracks api t a c
  | .get_artists t a => get_artists api t a
  | .get_audio_analysis t a => get_audio_analysis api t a
  | .get_audio_features t a => get_audio_features api t a
  | .get_available_markets t => get_available_markets api t
  | .get_categories t c lo l o => get_categories api t c lo l o
  | .get_category t a c lo => get_category api t a c lo
  | .get_category_playlists t a c l o => get_category_playlists api t a c l o
  | .get_episode t a m => get_episode api t a m
  | .get_episodes t a m => get_episodes api t a m
  | .get_featured_playlists t lo c ts l o => get_featured_playlists api t lo c ts l o
  | .get_audiobook t a m => get_audiobook api t a m
  | .get_audiobook_chapters t a m l o => get_audiobook_chapters api t a m l o
  | .get_audiobooks t a m => get_audiobooks api t a m
  | .get_new_releases t c l o => get_new_releases api t c l o
  | .get_playlist_info t a => get_playlist_info api t a
  | .get_playlist_tracks t a f l o m ad => get_playlist_tracks api t a f l o m ad
  | .playlist_cover_image t a => playlist_cover_image api t a
  | .playlist_is_following t a u => playlist_is_following api t a u
  | .get_available_genres t => get_available_genres api t
  | .get_recommendations t sa sg st l m a1 a2 a3 d1 d2 d3 u1 u2 u3 e1 e2 e3 i1 i2 i3 k1 k2 k3 v1 v2 v3 b1 b2 b3 o1 o2 o3 p1 p2 p3 s1 s2 s3 c1 c2 c3 g1 g2 g3 w1 w2 w3 =>
      get_recommendations api t sa sg st l m a1 a2 a3 d1 d2 d3 u1 u2 u3 e1 e2 e3 i1 i2 i3 k1 k2 k3 v1 v2 v3 b1 b2 b3 o1 o2 o3 p1 p2 p3 s1 s2 s3 c1 c2 c3 g1 g2 g3 w1 w2 w3
  | .search_tracks t q l o => search_tracks api t q l o
  | .search_artists t q l o => search_artists api t q l o
  | .search_albums t q l o => search_albums api t q l o
  | .search_playlists t q l o => search_playlists api t q l o
  | .get_show t a m => get_show api t a m
  | .get_show_episodes t a l o m => get_show_episodes api t a l o m
  | .get_shows t a m => get_shows api t a m
  | .get_track_info t a => get_track_info api t a
  | .get_tracks t a m => get_tracks api t a m
  | .get_user t a => get_user api t a
  | .get_user_playlists t a l o => get_user_playlists api t a l o
  | .get_current_playback t m ad => get_current_playback api t m ad
  | .get_current_user t => get_current_user api t
  | .get_current_user_followed_artists t l af => get_current_user_followed_artists api t l af
  | .check_current_user_following_artists t a => check_current_user_following_artists api t a
  | .check_current_user_following_users t a => check_current_user_following_users api t a
  | .get_current_user_playing_track t => get_current_user_playing_track api t
  | .get_current_user_playlists t l o => get_current_user_playlists api t l o
  | .get_current_user_recently_played t l af bf => get_current_user_recently_played api t l af bf
  | .get_current_user_saved_albums t l o m => get_current_user_saved_albums api t l o m
  | .check_current_user_saved_albums t a => check_current_user_saved_albums api t a
  | .get_current_user_saved_episodes t l o m => get_current_user_saved_episodes api t l o m
  | .check_current_user_saved_episodes t a => check_current_user_saved_episodes api t a
  | .get_current_user_saved_shows t l o m => get_current_user_saved_shows api t l o m
  | .check_current_user_saved_shows t a => check_current_user_saved_shows api t a
  | .get_current_user_saved_tracks t l o m => get_current_user_saved_tracks api t l o m
  | .check_current_user_saved_tracks t a => check_current_user_saved_tracks api t a
  | .get_current_user_top_artists t l o tr => get_current_user_top_artists api t l o tr
  | .get_current_user_top_tracks t l o tr => get_current_user_top_tracks api t l o tr
  | .get_currently_playing t m ad => get_currently_playing api t m ad
  | .get_devices t => get_devices api t
  | .get_playlist_items t a f l o m ad => get_playlist_items api t a f l o m ad
  | .get_queue t => get_queue api t
  | .search_general t q l o ty m => search_general api t q l o ty m
  | .search_markets t q l o ty ms tl => search_markets api t q l o ty ms tl
  | .get_user_playlist t a b f m => get_user_playlist api t a b f m

/-- The single delegated call an invocation issues: the client constructed
from the invocation's token, and the method with the forwarded arguments
(verified against the operation bodies by `runOp_spec` below). -/
def opCall : OpArgs → ApiCall
  | .get_album_info t a m => ⟨get_spotify_client t, .album a m⟩
  | .get_album_tracks t a l o m => ⟨get_spotify_client t, .album_tracks a l o m⟩
  | .get_albums t a m => ⟨get_spotify_client t, .albums a m⟩
  | .get_artist_info t a => ⟨get_spotify_client t, .artist a⟩
  | .get_artist_albums t a b g c l o => ⟨get_spotify_client t, .artist_albums a b g c l o⟩
  | .get_artist_related_artists t a => ⟨get_spotify_client t, .artist_related_artists a⟩
  | .get_artist_top_tracks t a c => ⟨get_spotify_client t, .artist_top_tracks a c⟩
  | .get_artists t a => ⟨get_spotify_client t, .artists a⟩
  | .get_audio_analysis t a => ⟨get_spotify_client t, .audio_analysis a⟩
  | .get_audio_features t a => ⟨get_spotify_client t, .audio_features a⟩
  | .get_available_markets t => ⟨get_spotify_client t, .available_markets⟩
  | .get_categories t c lo l o => ⟨get_spotify_client t, .categories c lo l o⟩
  | .get_category t a c lo => ⟨get_spotify_client t, .category a c lo⟩
  | .get_category_playlists t a c l o => ⟨get_spotify_client t, .category_playlists a c l o⟩
  | .get_episode t a m => ⟨get_spotify_client t, .episode a m⟩
  | .get_episodes t a m => ⟨get_spotify_client t, .episodes a m⟩
  | .get_featured_playlists t lo c ts l o => ⟨get_spotify_client t, .featured_playlists lo c ts l o⟩
  | .get_audiobook t a m => ⟨get_spotify_client t, .get_audiobook a m⟩
  | .get_audiobook_chapters t a m l o => ⟨get_spotify_client t, .get_audiobook_chapters a m l o⟩
  | .get_audiobooks t a m => ⟨get_spotify_client t, .get_audiobooks a m⟩
  | .get_new_releases t c l o => ⟨get_spotify_client t, .new_releases c l o⟩
  | .get_playlist_info t a => ⟨get_spotify_client t, .playlist a⟩
  | .get_playlist_tracks t a f l o m ad => ⟨get_spotify_client t, .playlist_tracks a f l o m ad⟩
  | .playlist_cover_image t a => ⟨get_spotify_client t, .playlist_cover_image a⟩
  | .playlist_is_following t a u => ⟨get_spotify_client t, .playlist_is_following a u⟩
  | .get_available_genres t => ⟨get_spotify_client t, .recommendation_genre_seeds⟩
  | .get_recommendations t sa sg st l m a1 a2 a3 d1 d2 d3 u1 u2 u3 e1 e2 e3 i1 i2 i3 k1 k2 k3 v1 v2 v3 b1 b2 b3 o1 o2 o3 p1 p2 p3 s1 s2 s3 c1 c2 c3 g1 g2 g3 w1 w2 w3 =>
      ⟨get_spotify_client t, .recommendations sa sg st l m a1 a2 a3 d1 d2 d3 u1 u2 u3 e1 e2 e3 i1 i2 i3 k1 k2 k3 v1 v2 v3 b1 b2 b3 o1 o2 o3 p1 p2 p3 s1 s2 s3 c1 c2 c3 g1 g2 g3 w1 w2 w3⟩
  | .search_tracks t q l o => ⟨get_spotify_client t, .search q l o "track" none⟩
  | .search_artists t q l o => ⟨get_spotify_client t, .search q l o "artist" none⟩
  | .search_albums t q l o => ⟨get_spotify_client t, .search q l o "album" none⟩
  | .search_playlists t q l o => ⟨get_spotify_client t, .search q l o "playlist" none⟩
  | .get_show t a m => ⟨get_spotify_client t, .show a m⟩
  | .get_show_episodes t a l o m => ⟨get_spotify_client t, .show_episodes a l o m⟩
  | .get_shows t a m => ⟨get_spotify_client t, .shows a m⟩
  | .get_track_info t a => ⟨get_spotify_client t, .track a⟩
  | .get_tracks t a m => ⟨get_spotify_client t, .tracks a m⟩
  | .get_user t a => ⟨get_spotify_client t, .user a⟩
  | .get_user_playlists t a l o => ⟨get_spotify_client t, .user_playlists a l o⟩
  | .get_current_playback t m ad => ⟨get_spotify_client t, .current_playback m ad⟩
  | .get_current_user t => ⟨get_spotify_client t, .current_user⟩
  | .get_current_user_followed_artists t l af => ⟨get_spotify_client t, .current_user_followed_artists l af⟩
  | .check_current_user_following_artists t a => ⟨get_spotify_client t, .current_user_following_artists a⟩
  | .check_current_user_following_users t a => ⟨get_spotify_client t, .current_user_following_users a⟩
  | .get_current_user_playing_track t => ⟨get_spotify_client t, .current_user_playing_track⟩
  | .get_current_user_playlists t l o => ⟨get_spotify_client t, .current_user_playlists l o⟩
  | .get_current_user_recently_played t l af bf => ⟨get_spotify_client t, .current_user_recently_played l af bf⟩
  | .get_current_user_saved_albums t l o m => ⟨get_spotify_client t, .current_user_saved_albums l o m⟩
  | .check_current_user_saved_albums t a => ⟨get_spotify_client t, .current_user_saved_albums_contains a⟩
  | .get_current_user_saved_episodes t l o m => ⟨get_spotify_client t, .current_user_saved_episodes l o m⟩
  | .check_current_user_saved_episodes t a => ⟨get_spotify_client t, .current_user_saved_episodes_contains a⟩
  | .get_current_user_saved_shows t l o m => ⟨get_spotify_client t, .current_user_saved_shows l o m⟩
  | .check_current_user_saved_shows t a => ⟨get_spotify_client t, .current_user_saved_shows_contains a⟩
  | .get_current_user_saved_tracks t l o m => ⟨get_spotify_client t, .current_user_saved_tracks l o m⟩
  | .check_current_user_saved_tracks t a => ⟨get_spotify_client t, .current_user_saved_tracks_contains a⟩
  | .get_current_user_top_artists t l o tr => ⟨get_spotify_client t, .current_user_top_artists l o tr⟩
  | .get_current_user_top_tracks t l o tr => ⟨get_spotify_client t, .current_user_top_tracks l o tr⟩
  | .get_currently_playing t m ad => ⟨get_spotify_client t, .currently_playing m ad⟩
  | .get_devices t => ⟨get_spotify_client t, .devices⟩
  | .get_playlist_items t a f l o m ad =>
      ⟨get_spotify_client t, .playlist_items a f l o m (if !ad.isEmpty then pySplit ad ',' else ["track", "episode"])⟩
  | .get_queue t => ⟨get_spotify_client t, .queue⟩
  | .search_general t q l o ty m => ⟨get_spotify_client t, .search q l o ty m⟩
  | .search_markets t q l o ty ms tl => ⟨get_spotify_client t, .search_markets q l o ty ms tl⟩
  | .get_user_playlist t a b f m => ⟨get_spotify_client t, .user_playlist a b f m⟩

/-- The fixed failure-message head each operation prepends to `str(e)`
when its delegated call raises. -/
def opFailMsg : OpArgs → String
  | .get_album_info .. => "Failed to get album info: "
  | .get_album_tracks .. => "Failed to get album tracks: "
  | .get_albums .. => "Failed to get albums: "
  | .get_artist_info .. => "Failed to get artist info: "
  | .get_artist_albums .. => "Failed to get artist albums: "
  | .get_artist_related_artists .. => "Failed to get related artists: "
  | .get_artist_top_tracks .. => "Failed to get artist top tracks: "
  | .get_artists .. => "Failed to get artists: "
  | .get_audio_analysis .. => "Failed to get audio analysis: "
  | .get_audio_features .. => "Failed to get audio features: "
  | .get_available_markets .. => "Failed to get available markets: "
  | .get_categories .. => "Failed to get categories: "
  | .get_category .. => "Failed to get category: "
  | .get_category_playlists .. => "Failed to get category playlists: "
  | .get_episode .. => "Failed to get episode: "
  | .get_episodes .. => "Failed to get episodes: "
  | .get_featured_playlists .. => "Failed to get featured playlists: "
  | .get_audiobook .. => "Failed to get audiobook: "
  | .get_audiobook_chapters .. => "Failed to get audiobook chapters: "
  | .get_audiobooks .. => "Failed to get audiobooks: "
  | .get_new_releases .. => "Failed to get new releases: "
  | .get_playlist_info .. => "Failed to get playlist info: "
  | .get_playlist_tracks .. => "Failed to get playlist tracks: "
  | .playlist_cover_image .. => "Failed to get playlist cover image: "
  | .playlist_is_following .. => "Failed to check playlist following status: "
  | .get_available_genres .. => "Failed to get available genres: "
  | .get_recommendations .. => "Failed to get recommendations: "
  | .search_tracks .. => "Track search failed: "
  | .search_artists .. => "Artist search failed: "
  | .search_albums .. => "Album search failed: "
  | .search_playlists .. => "Playlist search failed: "
  | .get_show .. => "Failed to get show: "
  | .get_show_episodes .. => "Failed to get show episodes: "
  | .get_shows .. => "Failed to get shows: "
  | .get_track_info .. => "Failed to get track info: "
  | .get_tracks .. => "Failed to get tracks: "
  | .get_user .. => "Failed to get user: "
  | .get_user_playlists .. => "Failed to get user playlists: "
  | .get_current_playback .. => "Failed to get current playback: "
  | .get_current_user .. => "Failed to get current user: "
  | .get_current_user_followed_artists .. => "Failed to get followed artists: "
  | .check_current_user_following_artists .. => "Failed to check if following artists: "
  | .check_current_user_following_users .. => "Failed to check if following users: "
  | .get_current_user_playing_track .. => "Failed to get currently playing track: "
  | .get_current_user_playlists .. => "Failed to get current user playlists: "
  | .get_current_user_recently_played .. => "Failed to get recently played tracks: "
  | .get_current_user_saved_albums .. => "Failed to get saved albums: "
  | .check_current_user_saved_albums .. => "Failed to check saved albums: "
  | .get_current_user_saved_episodes .. => "Failed to get saved episodes: "
  | .check_current_user_saved_episodes .. => "Failed to check saved episodes: "
  | .get_current_user_saved_shows .. => "Failed to get saved shows: "
  | .check_current_user_saved_shows .. => "Failed to check saved shows: "
  | .get_current_user_saved_tracks .. => "Failed to get saved tracks: "
  | .check_current_user_saved_tracks .. => "Failed to check saved tracks: "
  | .get_current_user_top_artists .. => "Failed to get top artists: "
  | .get_current_user_top_tracks .. => "Failed to get top tracks: "
  | .get_currently_playing .. => "Failed to get currently playing: "
  | .get_devices .. => "Failed to get devices: "
  | .get_playlist_items .. => "Failed to get playlist items: "
  | .get_queue .. => "Failed to get queue: "
  | .search_general .. => "Search failed: "
  | .search_markets .. => "Multi-market search failed: "
  | .get_user_playlist .. => "Failed to get user playlist: "

/-- How an operation shapes a successful response: pass it through
verbatim, substitute a null placeholder under `key` when the response is
falsy, or always rewrap it under `key`. -/
inductive ResKind where
  | pass
  | placeholder (key : String)
  | rewrap (key : String)

/-- Applies a result shape to a successful response. -/
def applyKind : ResKind → JVal → JVal
  | .pass, v => v
  | .placeholder key, v => if v.truthy then v else JVal.obj [(key, JVal.null)]
  | .rewrap key, v => JVal.obj [(key, v)]

/-- Each operation's result shape (verified against the operation bodies
by `runOp_spec` below). -/
def opKind : OpArgs → ResKind
  | .get_audio_features .. => .placeholder "audio_features"
  | .get_current_playback .. => .placeholder "playback"
  | .get_current_user_playing_track .. => .placeholder "track"
  | .get_currently_playing .. => .placeholder "currently_playing"
  | .playlist_cover_image .. => .rewrap "images"
  | .playlist_is_following .. => .rewrap "following"
  | .check_current_user_following_artists .. => .rewrap "following"
  | .check_current_user_following_users .. => .rewrap "following"
  | .check_current_user_saved_albums .. => .rewrap "saved"
  | .check_current_user_saved_episodes .. => .rewrap "saved"
  | .check_current_user_saved_shows .. => .rewrap "saved"
  | .check_current_user_saved_tracks .. => .rewrap "saved"
  | _ => .pass

/-- Whether a result shape is the placeholder substitution. -/
def ResKind.isPlaceholder : ResKind → Bool
  | .placeholder _ => true
  | _ => false

/-- The Python name of the operation an invocation belongs to. -/
def opName : OpArgs → String
  | .get_album_info .. => "get_album_info"
  | .get_album_tracks .. => "get_album_tracks"
  | .get_albums .. => "get_albums"
  | .get_artist_info .. => "get_artist_info"
  | .get_artist_albums .. => "get_artist_albums"
  | .get_artist_related_artists .. => "get_artist_related_artists"
  | .get_artist_top_tracks .. => "get_artist_top_tracks"
  | .get_artists .. => "get_artists"
  | .get_audio_analysis .. => "get_audio_analysis"
  | .get_audio_features .. => "get_audio_features"
  | .get_available_markets .. => "get_available_markets"
  | .get_categories .. => "get_categories"
  | .get_category .. => "get_category"
  | .get_category_playlists .. => "get_category_playlists"
  | .get_episode .. => "get_episode"
  | .get_episodes .. => "get_episodes"
  | .get_featured_playlists .. => "get_featured_playlists"
  | .get_audiobook .. => "get_audiobook"
  | .get_audiobook_chapters .. => "get_audiobook_chapters"
  | .get_audiobooks .. => "get_audiobooks"
  | .get_new_releases .. => "get_new_releases"
  | .get_playlist_info .. => "get_playlist_info"
  | .get_playlist_tracks .. => "get_playlist_tracks"
  | .playlist_cover_image .. => "playlist_cover_image"
  | .playlist_is_following .. => "playlist_is_following"
  | .get_available_genres .. => "get_available_genres"
  | .get_recommendations .. => "get_recommendations"
  | .search_tracks .. => "search_tracks"
  | .search_artists .. => "search_artists"
  | .search_albums .. => "search_albums"
  | .search_playlists .. => "search_playlists"
  | .get_show .. => "get_show"
  | .get_show_episodes .. => "get_show_episodes"
  | .get_shows .. => "get_shows"
  | .get_track_info .. => "get_track_info"
  | .get_tracks .. => "get_tracks"
  | .get_user .. => "get_user"
  | .get_user_playlists .. => "get_user_playlists"
  | .get_current_playback .. => "get_current_playback"
  | .get_current_user .. => "get_current_user"
  | .get_current_user_followed_artists .. => "get_current_user_followed_artists"
  | .check_current_user_following_artists .. => "check_current_user_following_artists"
  | .check_current_user_following_users .. => "check_current_user_following_users"
  | .get_current_user_playing_track .. => "get_current_user_playing_track"
  | .get_current_user_playlists .. => "get_current_user_playlists"
  | .get_current_user_recently_played .. => "get_current_user_recently_played"
  | .get_current_user_saved_albums .. => "get_current_user_saved_albums"
  | .check_current_user_saved_albums .. => "check_current_user_saved_albums"
  | .get_current_user_saved_episodes .. => "get_current_user_saved_episodes"
  | .check_current_user_saved_episodes .. => "check_current_user_saved_episodes"
  | .get_current_user_saved_shows .. => "get_current_user_saved_shows"
  | .check_current_user_saved_shows .. => "check_current_user_saved_shows"
  | .get_current_user_saved_tracks .. => "get_current_user_saved_tracks"
  | .check_current_user_saved_tracks .. => "check_current_user_saved_tracks"
  | .get_current_user_top_artists .. => "get_current_user_top_artists"
  | .get_current_user_top_tracks .. => "get_current_user_top_tracks"
  | .get_currently_playing .. => "get_currently_playing"
  | .get_devices .. => "get_devices"
  | .get_playlist_items .. => "get_playlist_items"
  | .get_queue .. => "get_queue"
  | .search_general .. => "search_general"
  | .search_markets .. => "search_markets"
  | .get_user_playlist .. => "get_user_playlist"

/-- The caller-supplied token of an invocation (always the operation's
first parameter in the source). -/
def OpArgs.token : OpArgs → String
  | .get_album_info t .. => t
  | .get_album_tracks t .. => t
  | .get_albums t .. => t
  | .get_artist_info t .. => t
  | .get_artist_albums t .. => t
  | .get_artist_related_artists t .. => t
  | .get_artist_top_tracks t .. => t
  | .get_artists t .. => t
  | .get_audio_analysis t .. => t
  | .get_audio_features t .. => t
  | .get_available_markets t => t
  | .get_categories t .. => t
  | .get_category t .. => t
  | .get_category_playlists t .. => t
  | .get_episode t .. => t
  | .get_episodes t .. => t
  | .get_featured_playlists t .. => t
  | .get_audiobook t .. => t
  | .get_audiobook_chapters t .. => t
  | .get_audiobooks t .. => t
  | .get_new_releases t .. => t
  | .get_playlist_info t .. => t
  | .get_playlist_tracks t .. => t
  | .playlist_cover_image t .. => t
  | .playlist_is_following t .. => t
  | .get_available_genres t => t
  | .get_recommendations t .. => t
  | .search_tracks t .. => t
  | .search_artists t .. => t
  | .search_albums t .. => t
  | .search_playlists t .. => t
  | .get_show t .. => t
  | .get_show_episodes t .. => t
  | .get_shows t .. => t
  | .get_track_info t .. => t
  | .get_tracks t .. => t
  | .get_user t .. => t
  | .get_user_playlists t .. => t
  | .get_current_playback t .. => t
  | .get_current_user t => t
  | .get_current_user_followed_artists t .. => t
  | .check_current_user_following_artists t .. => t
  | .check_current_user_following_users t .. => t
  | .get_current_user_playing_track t => t
  | .get_current_user_playlists t .. => t
  | .get_current_user_recently_played t .. => t
  | .get_current_user_saved_albums t .. => t
  | .check_current_user_saved_albums t .. => t
  | .get_current_user_saved_episodes t .. => t
  | .check_current_user_saved_episodes t .. => t
  | .get_current_user_saved_shows t .. => t
  | .check_current_user_saved_shows t .. => t
  | .get_current_user_saved_tracks t .. => t
  | .check_current_user_saved_tracks t .. => t
  | .get_current_user_top_artists t .. => t
  | .get_current_user_top_tracks t .. => t
  | .get_currently_playing t .. => t
  | .get_devices t => t
  | .get_playlist_items t .. => t
  | .get_queue t => t
  | .search_general t .. => t
  | .search_markets t .. => t
  | .get_user_playlist t .. => t

/-- Runs the same invocation `n` times in sequence against an unchanged
remote state, collecting the results. -/
def runN (api : Api) (op : OpArgs) : Nat → List JVal
  | 0 => []
  | n + 1 => runOp api op :: runN api op n

/-- Whether a result shape's fixed key avoids the reserved failure key
`error` (trivially satisfied by passthrough). -/
def ResKind.keyOk : ResKind → Prop
  | .pass => True
  | .placeholder key => key ≠ "error"
  | .rewrap key => key ≠ "error"

/-- Every operation body is the uniform template: issue the single
delegated call `opCall`, shape a successful response with `opKind`, and
turn a raised failure into the error object headed by `opFailMsg`. -/
theorem runOp_spec (api : Api) (op : OpArgs) :
    runOp api op =
      match api (opCall op) with
      | .ok v => applyKind (opKind op) v
      | .error e => JVal.obj [("error", JVal.str (opFailMsg op ++ e))] := by
  cases op <;> rfl

/-- The delegated call is always issued through the client freshly
constructed from the invocation's own token. -/
theorem opCall_client (op : OpArgs) :
    (opCall op).client = get_spotify_client op.token := by
  cases op <;> rfl

/-- The only result shapes that occur: passthrough, the four placeholder
keys, and the three rewrap keys. -/
theorem opKind_cases (op : OpArgs) :
    opKind op = ResKind.pass ∨
    opKind op = ResKind.placeholder "audio_features" ∨
    opKind op = ResKind.placeholder "playback" ∨
    opKind op = ResKind.placeholder "track" ∨
    opKind op = ResKind.placeholder "currently_playing" ∨
    opKind op = ResKind.rewrap "images" ∨
    opKind op = ResKind.rewrap "following" ∨
    opKind op = ResKind.rewrap "saved" := by
  cases op <;> simp [opKind]

/-- The placeholder substitution occurs in exactly four operations. -/
theorem placeholder_names (op : OpArgs) :
    (opKind op).isPlaceholder = true ↔
      (opName op = "get_audio_features" ∨ opName op = "get_current_playback" ∨
       opName op = "get_current_user_playing_track" ∨ opName op = "get_currently_playing") := by
  cases op <;> simp [opKind, opName, ResKind.isPlaceholder]

/-- No placeholder or rewrap key collides with the failure key `error`. -/
theorem opKind_keyOk (op : OpArgs) : (opKind op).keyOk := by
  rcases opKind_cases op with h | h | h | h | h | h | h | h <;> rw [h] <;> simp [ResKind.keyOk]

/-- A single-field object strictly contains its value, so rewrapping is
never the identity. -/
theorem JVal.obj_single_ne (k : String) (v : JVal) : JVal.obj [(k, v)] ≠ v := by
  intro h
  have hs := congrArg sizeOf h
  simp at hs
  omega

/-- C1 counterexample: `get_audio_features` passes a truthy response
through unmodified, so when the delegated call returns a non-empty list
(as spotipy's `audio_features` does), the operation's result is that raw
list — not a mapping, contradicting "it is always a mapping". -/
theorem claim_C1_cex :
    get_audio_features (fun _ => Except.ok (JVal.arr [JVal.null])) "tok" ["id1"] =
      JVal.arr [JVal.null] ∧
    (JVal.arr [JVal.null]).isObj = false :=
  ⟨rfl, rfl⟩

/-- C1 (amended): every operation result is exactly one of: the error
object (a single-field mapping keyed `error`, exactly when the delegated
call raised), or the successful response shaped by the operation's fixed
result kind — passthrough, placeholder, or rewrap — whose placeholder and
rewrap keys never collide with `error`.  The result is a mapping in the
error, placeholder and rewrap shapes; a passthrough result has whatever
shape the raw response has. -/
theorem claim_C1_amended_result_shape (api : Api) (op : OpArgs) :
    (∃ e, api (opCall op) = Except.error e ∧
        runOp api op = JVal.obj [("error", JVal.str (opFailMsg op ++ e))]) ∨
    (∃ v, api (opCall op) = Except.ok v ∧
        runOp api op = applyKind (opKind op) v ∧ (opKind op).keyOk) := by
  cases h : api (opCall op) with
  | ok v => exact Or.inr ⟨v, rfl, by rw [runOp_spec, h], opKind_keyOk op⟩
  | error e => exact Or.inl ⟨e, rfl, by rw [runOp_spec, h]⟩

/-- C2: whenever the delegated call raises, every operation returns the
mapping whose single field `error` holds the operation's fixed failure
message followed by the raised failure's description; nothing propagates. -/
theorem claim_C2_error_shape (api : Api) (op : OpArgs) (e : String)
    (h : api (opCall op) = Except.error e) :
    runOp api op = JVal.obj [("error", JVal.str (opFailMsg op ++ e))] := by
  rw [runOp_spec, h]

/-- C2 witness: `get_track_info` with a failing delegated call yields the
documented error object. -/
theorem claim_C2_witness :
    runOp (fun _ => Except.error "boom") (OpArgs.get_track_info "tok" "abc123") =
      JVal.obj [("error", JVal.str ("Failed to get track info: " ++ "boom"))] :=
  claim_C2_error_shape (fun _ => Except.error "boom") (OpArgs.get_track_info "tok" "abc123")
    "boom" rfl

/-- C3 counterexample: `playlist_cover_image` does not return a non-empty
successful response unmodified — it rewraps it under `images`. -/
theorem claim_C3_cex :
    playlist_cover_image (fun _ => Except.ok (JVal.arr [JVal.str "u"])) "tok" "pl" =
      JVal.obj [("images", JVal.arr [JVal.str "u"])] ∧
    (JVal.arr [JVal.str "u"]).truthy = true ∧
    playlist_cover_image (fun _ => Except.ok (JVal.arr [JVal.str "u"])) "tok" "pl" ≠
      JVal.arr [JVal.str "u"] :=
  ⟨rfl, rfl, fun h => JVal.noConfusion h⟩

/-- C3 (amended): on a truthy (non-empty) successful response, passthrough
and placeholder operations return the response unmodified, while the
rewrap operations return it wrapped under their fixed key, which is never
`error`. -/
theorem claim_C3_amended_success_shape (api : Api) (op : OpArgs) (v : JVal)
    (h : api (opCall op) = Except.ok v) (ht : v.truthy = true) :
    runOp api op = applyKind (opKind op) v ∧
    (opKind op = ResKind.pass → runOp api op = v) ∧
    (∀ k, opKind op = ResKind.placeholder k → runOp api op = v) ∧
    (∀ k, opKind op = ResKind.rewrap k → runOp api op = JVal.obj [(k, v)] ∧ k ≠ "error") := by
  have hr : runOp api op = applyKind (opKind op) v := by rw [runOp_spec, h]
  refine ⟨hr, ?_, ?_, ?_⟩
  · intro hk
    rw [hr, hk]
    rfl
  · intro k hk
    rw [hr, hk]
    simp [applyKind, ht]
  · intro k hk
    refine ⟨by rw [hr, hk]; rfl, ?_⟩
    have hok := opKind_keyOk op
    rw [hk] at hok
    exact hok

/-- C3 witness: `get_track_info` passes a non-empty response through
unmodified. -/
theorem claim_C3_amended_witness :
    runOp (fun _ => Except.ok (JVal.obj [("name", JVal.str "x")]))
        (OpArgs.get_track_info "tok" "abc123") =
      JVal.obj [("name", JVal.str "x")] :=
  (claim_C3_amended_success_shape (fun _ => Except.ok (JVal.obj [("name", JVal.str "x")]))
    (OpArgs.get_track_info "tok" "abc123") (JVal.obj [("name", JVal.str "x")]) rfl rfl).2.1 rfl

/-- C4: each of the four operations with a meaningful empty result
(`get_current_user_playing_track`, `get_currently_playing`,
`get_current_playback`, `get_audio_features`) turns an empty or absent
response (`None`, `{}` or `[]`) into its documented single-key placeholder
object, which is neither the empty mapping nor the raw null. -/
theorem claim_C4_placeholder_on_empty :
    (∀ (api : Api) (token : String) (v : JVal),
        api ⟨get_spotify_client token, ApiMethod.current_user_playing_track⟩ = Except.ok v →
        (v = JVal.null ∨ v = JVal.obj [] ∨ v = JVal.arr []) →
        get_current_user_playing_track api token = JVal.obj [("track", JVal.null)] ∧
        JVal.obj [("track", JVal.null)] ≠ JVal.obj [] ∧
        JVal.obj [("track", JVal.null)] ≠ JVal.null) ∧
    (∀ (api : Api) (token : String) (market additional_types : Option String) (v : JVal),
        api ⟨get_spotify_client token, ApiMethod.currently_playing market additional_types⟩ =
          Except.ok v →
        (v = JVal.null ∨ v = JVal.obj [] ∨ v = JVal.arr []) →
        get_currently_playing api token market additional_types =
          JVal.obj [("currently_playing", JVal.null)] ∧
        JVal.obj [("currently_playing", JVal.null)] ≠ JVal.obj [] ∧
        JVal.obj [("currently_playing", JVal.null)] ≠ JVal.null) ∧
    (∀ (api : Api) (token : String) (market additional_types : Option String) (v : JVal),
        api ⟨get_spotify_client token, ApiMethod.current_playback market additional_types⟩ =
          Except.ok v →
        (v = JVal.null ∨ v = JVal.obj [] ∨ v = JVal.arr []) →
        get_current_playback api token market additional_types =
          JVal.obj [("playback", JVal.null)] ∧
        JVal.obj [("playback", JVal.null)] ≠ JVal.obj [] ∧
        JVal.obj [("playback", JVal.null)] ≠ JVal.null) ∧
    (∀ (api : Api) (token : String) (tracks : List String) (v : JVal),
        api ⟨get_spotify_client token, ApiMethod.audio_features tracks⟩ = Except.ok v →
        (v = JVal.null ∨ v = JVal.obj [] ∨ v = JVal.arr []) →
        get_audio_features api token tracks = JVal.obj [("audio_features", JVal.null)] ∧
        JVal.obj [("audio_features", JVal.null)] ≠ JVal.obj [] ∧
        JVal.obj [("audio_features", JVal.null)] ≠ JVal.null) := by
  refine ⟨?_, ?_, ?_, ?_⟩
  · intro api token v h hv
    rcases hv with rfl | rfl | rfl <;>
      exact ⟨by simp [get_current_user_playing_track, h, JVal.truthy], by simp, by simp⟩
  · intro api token market additional_types v h hv
    rcases hv with rfl | rfl | rfl <;>
      exact ⟨by simp [get_currently_playing, h, JVal.truthy], by simp, by simp⟩
  · intro api token market additional_types v h hv
    rcases hv with rfl | rfl | rfl <;>
      exact ⟨by simp [get_current_playback, h, JVal.truthy], by simp, by simp⟩
  · intro api token tracks v h hv
    rcases hv with rfl | rfl | rfl <;>
      exact ⟨by simp [get_audio_features, h, JVal.truthy], by simp, by simp⟩

/-- C4 witness: the four placeholder substitutions at concrete empty
responses. -/
theorem claim_C4_witness :
    get_current_user_playing_track (fun _ => Except.ok JVal.null) "tok" =
      JVal.obj [("track", JVal.null)] ∧
    get_currently_playing (fun _ => Except.ok JVal.null) "tok" none none =
      JVal.obj [("currently_playing", JVal.null)] ∧
    get_current_playback (fun _ => Except.ok (JVal.obj [])) "tok" none none =
      JVal.obj [("playback", JVal.null)] ∧
    get_audio_features (fun _ => Except.ok (JVal.arr [])) "tok" ["id1"] =
      JVal.obj [("audio_features", JVal.null)] :=
  ⟨(claim_C4_placeholder_on_empty.1 _ "tok" JVal.null rfl (Or.inl rfl)).1,
   (claim_C4_placeholder_on_empty.2.1 _ "tok" none none JVal.null rfl (Or.inl rfl)).1,
   (claim_C4_placeholder_on_empty.2.2.1 _ "tok" none none (JVal.obj []) rfl
     (Or.inr (Or.inl rfl))).1,
   (claim_C4_placeholder_on_empty.2.2.2 _ "tok" ["id1"] (JVal.arr []) rfl
     (Or.inr (Or.inr rfl))).1⟩

/-- C5: every existence-check operation wraps the service's boolean-list
answer, exactly as returned, under its fixed key (`saved` or `following`);
when that answer has one boolean per input identifier, the wrapped list
has exactly the input's length, in the input's order. -/
theorem claim_C5_existence_checks :
    (∀ (api : Api) (token : String) (tracks : List String) (bs : List Bool),
        api ⟨get_spotify_client token, ApiMethod.current_user_saved_tracks_contains tracks⟩ =
          Except.ok (JVal.arr (bs.map JVal.bool)) →
        bs.length = tracks.length →
        check_current_user_saved_tracks api token tracks =
          JVal.obj [("saved", JVal.arr (bs.map JVal.bool))] ∧
        (bs.map JVal.bool).length = tracks.length) ∧
    (∀ (api : Api) (token playlist_id : String) (user_ids : List String) (bs : List Bool),
        api ⟨get_spotify_client token, ApiMethod.playlist_is_following playlist_id user_ids⟩ =
          Except.ok (JVal.arr (bs.map JVal.bool)) →
        bs.length = user_ids.length →
        playlist_is_following api token playlist_id user_ids =
          JVal.obj [("following", JVal.arr (bs.map JVal.bool))] ∧
        (bs.map JVal.bool).length = user_ids.length) ∧
    (∀ (api : Api) (token : String) (ids : List String) (bs : List Bool),
        api ⟨get_spotify_client token, ApiMethod.current_user_following_artists ids⟩ =
          Except.ok (JVal.arr (bs.map JVal.bool)) →
        bs.length = ids.length →
        check_current_user_following_artists api token ids =
          JVal.obj [("following", JVal.arr (bs.map JVal.bool))] ∧
        (bs.map JVal.bool).length = ids.length) ∧
    (∀ (api : Api) (token : String) (ids : List String) (bs : List Bool),
        api ⟨get_spotify_client token, ApiMethod.current_user_following_users ids⟩ =
          Except.ok (JVal.arr (bs.map JVal.bool)) →
        bs.length = ids.length →
        check_current_user_following_users api token ids =
          JVal.obj [("following", JVal.arr (bs.map JVal.bool))] ∧
        (bs.map JVal.bool).length = ids.length) ∧
    (∀ (api : Api) (token : String) (albums : List String) (bs : List Bool),
        api ⟨get_spotify_client token, ApiMethod.current_user_saved_albums_contains albums⟩ =
          Except.ok (JVal.arr (bs.map JVal.bool)) →
        bs.length = albums.length →
        check_current_user_saved_albums api token albums =
          JVal.obj [("saved", JVal.arr (bs.map JVal.bool))] ∧
        (bs.map JVal.bool).length = albums.length) ∧
    (∀ (api : Api) (token : String) (episodes : List String) (bs : List Bool),
        api ⟨get_spotify_client token, ApiMethod.current_user_saved_episodes_contains episodes⟩ =
          Except.ok (JVal.arr (bs.map JVal.bool)) →
        bs.length = episodes.length →
        check_current_user_saved_episodes api token episodes =
          JVal.obj [("saved", JVal.arr (bs.map JVal.bool))] ∧
        (bs.map JVal.bool).length = episodes.length) ∧
    (∀ (api : Api) (token : String) (shows : List String) (bs : List Bool),
        api ⟨get_spotify_client token, ApiMethod.current_user_saved_shows_contains shows⟩ =
          Except.ok (JVal.arr (bs.map JVal.bool)) →
        bs.length = shows.length →
        check_current_user_saved_shows api token shows =
          JVal.obj [("saved", JVal.arr (bs.map JVal.bool))] ∧
        (bs.map JVal.bool).length = shows.length) := by
  refine ⟨?_, ?_, ?_, ?_, ?_, ?_, ?_⟩
  · intro api token tracks bs h hl
    exact ⟨by simp [check_current_user_saved_tracks, h], by simpa using hl⟩
  · intro api token playlist_id user_ids bs h hl
    exact ⟨by simp [playlist_is_following, h], by simpa using hl⟩
  · intro api token ids bs h hl
    exact ⟨by simp [check_current_user_following_artists, h], by simpa using hl⟩
  · intro api token ids bs h hl
    exact ⟨by simp [check_current_user_following_users, h], by simpa using hl⟩
  · intro api token albums bs h hl
    exact ⟨by simp [check_current_user_saved_albums, h], by simpa using hl⟩
  · intro api token episodes bs h hl
    exact ⟨by simp [check_current_user_saved_episodes, h], by simpa using hl⟩
  · intro api token shows bs h hl
    exact ⟨by simp [check_current_user_saved_shows, h], by simpa using hl⟩

/-- C5 witness: the spec's scenario — two track ids, answer
`[true, false]`, result `{"saved": [true, false]}`. -/
theorem claim_C5_witness :
    check_current_user_saved_tracks
        (fun _ => Except.ok (JVal.arr [JVal.bool true, JVal.bool false])) "tok" ["id1", "id2"] =
      JVal.obj [("saved", JVal.arr [JVal.bool true, JVal.bool false])] :=
  (claim_C5_existence_checks.1
    (fun _ => Except.ok (JVal.arr [JVal.bool true, JVal.bool false])) "tok" ["id1", "id2"]
    [true, false] rfl rfl).1

/-- C6 counterexample: `get_playlist_items` does transform a parameter
before forwarding — its `additional_types` string is split on commas, so
the two distinct supplied values `""` and `"track,episode"` issue the
identical delegated call, which is impossible if every parameter value
were forwarded unmodified. -/
theorem claim_C6_cex :
    opCall (OpArgs.get_playlist_items "tok" "pl" none 100 0 none "") =
      opCall (OpArgs.get_playlist_items "tok" "pl" none 100 0 none "track,episode") ∧
    opCall (OpArgs.get_playlist_items "tok" "pl" none 100 0 none "track,episode") =
      ⟨get_spotify_client "tok",
        ApiMethod.playlist_items "pl" none 100 0 none ["track", "episode"]⟩ ∧
    ("" : String) ≠ "track,episode" :=
  ⟨rfl, rfl, by decide⟩

/-- C6 (amended): every operation forwards its operation-specific
parameters to its single delegated call with names and values preserved,
with one exception: `get_playlist_items` splits its `additional_types`
string on commas into a tuple before forwarding (an empty string forwards
the default `("track", "episode")`); the four typed search operations also
supply their fixed `type` constant and spotipy's default `market = None`. -/
theorem claim_C6_amended_forwarding :
    (∀ t a m, opCall (OpArgs.get_album_info t a m) =
      ⟨get_spotify_client t, ApiMethod.album a m⟩) ∧
    (∀ t a l o m, opCall (OpArgs.get_album_tracks t a l o m) =
      ⟨get_spotify_client t, ApiMethod.album_tracks a l o m⟩) ∧
    (∀ t a m, opCall (OpArgs.get_albums t a m) =
      ⟨get_spotify_client t, ApiMethod.albums a m⟩) ∧
    (∀ t a, opCall (OpArgs.get_artist_info t a) =
      ⟨get_spotify_client t, ApiMethod.artist a⟩) ∧
    (∀ t a b g c l o, opCall (OpArgs.get_artist_albums t a b g c l o) =
      ⟨get_spotify_client t, ApiMethod.artist_albums a b g c l o⟩) ∧
    (∀ t a, opCall (OpArgs.get_artist_related_artists t a) =
      ⟨get_spotify_client t, ApiMethod.artist_related_artists a⟩) ∧
    (∀ t a c, opCall (OpArgs.get_artist_top_tracks t a c) =
      ⟨get_spotify_client t, ApiMethod.artist_top_tracks a c⟩) ∧
    (∀ t a, opCall (OpArgs.get_artists t a) =
      ⟨get_spotify_client t, ApiMethod.artists a⟩) ∧
    (∀ t a, opCall (OpArgs.get_audio_analysis t a) =
      ⟨get_spotify_client t, ApiMethod.audio_analysis a⟩) ∧
    (∀ t a, opCall (OpArgs.get_audio_features t a) =
      ⟨get_spotify_client t, ApiMethod.audio_features a⟩) ∧
    (∀ t, opCall (OpArgs.get_available_markets t) =
      ⟨get_spotify_client t, ApiMethod.available_markets⟩) ∧
    (∀ t c lo l o, opCall (OpArgs.get_categories t c lo l o) =
      ⟨get_spotify_client t, ApiMethod.categories c lo l o⟩) ∧
    (∀ t a c lo, opCall (OpArgs.get_category t a c lo) =
      ⟨get_spotify_client t, ApiMethod.category a c lo⟩) ∧
    (∀ t a c l o, opCall (OpArgs.get_category_playlists t a c l o) =
      ⟨get_spotify_client t, ApiMethod.category_playlists a c l o⟩) ∧
    (∀ t a m, opCall (OpArgs.get_episode t a m) =
      ⟨get_spotify_client t, ApiMethod.episode a m⟩) ∧
    (∀ t a m, opCall (OpArgs.get_episodes t a m) =
      ⟨get_spotify_client t, ApiMethod.episodes a m⟩) ∧
    (∀ t lo c ts l o, opCall (OpArgs.get_featured_playlists t lo c ts l o) =
      ⟨get_spotify_client t, ApiMethod.featured_playlists lo c ts l o⟩) ∧
    (∀ t a m, opCall (OpArgs.get_audiobook t a m) =
      ⟨get_spotify_client t, ApiMethod.get_audiobook a m⟩) ∧
    (∀ t a m l o, opCall (OpArgs.get_audiobook_chapters t a m l o) =
      ⟨get_spotify_client t, ApiMethod.get_audiobook_chapters a m l o⟩) ∧
    (∀ t a m, opCall (OpArgs.get_audiobooks t a m) =
      ⟨get_spotify_client t, ApiMethod.get_audiobooks a m⟩) ∧
    (∀ t c l o, opCall (OpArgs.get_new_releases t c l o) =
      ⟨get_spotify_client t, ApiMethod.new_releases c l o⟩) ∧
    (∀ t a, opCall (OpArgs.get_playlist_info t a) =
      ⟨get_spotify_client t, ApiMethod.playlist a⟩) ∧
    (∀ t a f l o m ad, opCall (OpArgs.get_playlist_tracks t a f l o m ad) =
      ⟨get_spotify_client t, ApiMethod.playlist_tracks a f l o m ad⟩) ∧
    (∀ t a, opCall (OpArgs.playlist_cover_image t a) =
      ⟨get_spotify_client t, ApiMethod.playlist_cover_image a⟩) ∧
    (∀ t a u, opCall (OpArgs.playlist_is_following t a u) =
      ⟨get_spotify_client t, ApiMethod.playlist_is_following a u⟩) ∧
    (∀ t, opCall (OpArgs.get_available_genres t) =
      ⟨get_spotify_client t, ApiMethod.recommendation_genre_seeds⟩) ∧
    (∀ t sa sg st l m a1 a2 a3 d1 d2 d3 u1 u2 u3 e1 e2 e3 i1 i2 i3 k1 k2 k3 v1 v2 v3 b1 b2 b3 o1 o2 o3 p1 p2 p3 s1 s2 s3 c1 c2 c3 g1 g2 g3 w1 w2 w3, opCall (OpArgs.get_recommendations t sa sg st l m a1 a2 a3 d1 d2 d3 u1 u2 u3 e1 e2 e3 i1 i2 i3 k1 k2 k3 v1 v2 v3 b1 b2 b3 o1 o2 o3 p1 p2 p3 s1 s2 s3 c1 c2 c3 g1 g2 g3 w1 w2 w3) =
      ⟨get_spotify_client t, ApiMethod.recommendations sa sg st l m a1 a2 a3 d1 d2 d3 u1 u2 u3 e1 e2 e3 i1 i2 i3 k1 k2 k3 v1 v2 v3 b1 b2 b3 o1 o2 o3 p1 p2 p3 s1 s2 s3 c1 c2 c3 g1 g2 g3 w1 w2 w3⟩) ∧
    (∀ t q l o, opCall (OpArgs.search_tracks t q l o) =
      ⟨get_spotify_client t, ApiMethod.search q l o "track" none⟩) ∧
    (∀ t q l o, opCall (OpArgs.search_artists t q l o) =
      ⟨get_spotify_client t, ApiMethod.search q l o "artist" none⟩) ∧
    (∀ t q l o, opCall (OpArgs.search_albums t q l o) =
      ⟨get_spotify_client t, ApiMethod.search q l o "album" none⟩) ∧
    (∀ t q l o, opCall (OpArgs.search_playlists t q l o) =
      ⟨get_spotify_client t, ApiMethod.search q l o "playlist" none⟩) ∧
    (∀ t a m, opCall (OpArgs.get_show t a m) =
      ⟨get_spotify_client t, ApiMethod.show a m⟩) ∧
    (∀ t a l o m, opCall (OpArgs.get_show_episodes t a l o m) =
      ⟨get_spotify_client t, ApiMethod.show_episodes a l o m⟩) ∧
    (∀ t a m, opCall (OpArgs.get_shows t a m) =
      ⟨get_spotify_client t, ApiMethod.shows a m⟩) ∧
    (∀ t a, opCall (OpArgs.get_track_info t a) =
      ⟨get_spotify_client t, ApiMethod.track a⟩) ∧
    (∀ t a m, opCall (OpArgs.get_tracks t a m) =
      ⟨get_spotify_client t, ApiMethod.tracks a m⟩) ∧
    (∀ t a, opCall (OpArgs.get_user t a) =
      ⟨get_spotify_client t, ApiMethod.user a⟩) ∧
    (∀ t a l o, opCall (OpArgs.get_user_playlists t a l o) =
      ⟨get_spotify_client t, ApiMethod.user_playlists a l o⟩) ∧
    (∀ t m ad, opCall (OpArgs.get_current_playback t m ad) =
      ⟨get_spotify_client t, ApiMethod.current_playback m ad⟩) ∧
    (∀ t, opCall (OpArgs.get_current_user t) =
      ⟨get_spotify_client t, ApiMethod.current_user⟩) ∧
    (∀ t l af, opCall (OpArgs.get_current_user_followed_artists t l af) =
      ⟨get_spotify_client t, ApiMethod.current_user_followed_artists l af⟩) ∧
    (∀ t a, opCall (OpArgs.check_current_user_following_artists t a) =
      ⟨get_spotify_client t, ApiMethod.current_user_following_artists a⟩) ∧
    (∀ t a, opCall (OpArgs.check_current_user_following_users t a) =
      ⟨get_spotify_client t, ApiMethod.current_user_following_users a⟩) ∧
    (∀ t, opCall (OpArgs.get_current_user_playing_track t) =
      ⟨get_spotify_client t, ApiMethod.current_user_playing_track⟩) ∧
    (∀ t l o, opCall (OpArgs.get_current_user_playlists t l o) =
      ⟨get_spotify_client t, ApiMethod.current_user_playlists l o⟩) ∧
    (∀ t l af bf, opCall (OpArgs.get_current_user_recently_played t l af bf) =
      ⟨get_spotify_client t, ApiMethod.current_user_recently_played l af bf⟩) ∧
    (∀ t l o m, opCall (OpArgs.get_current_user_saved_albums t l o m) =
      ⟨get_spotify_client t, ApiMethod.current_user_saved_albums l o m⟩) ∧
    (∀ t a, opCall (OpArgs.check_current_user_saved_albums t a) =
      ⟨get_spotify_client t, ApiMethod.current_user_saved_albums_contains a⟩) ∧
    (∀ t l o m, opCall (OpArgs.get_current_user_saved_episodes t l o m) =
      ⟨get_spotify_client t, ApiMethod.current_user_saved_episodes l o m⟩) ∧
    (∀ t a, opCall (OpArgs.check_current_user_saved_episodes t a) =
      ⟨get_spotify_client t, ApiMethod.current_user_saved_episodes_contains a⟩) ∧
    (∀ t l o m, opCall (OpArgs.get_current_user_saved_shows t l o m) =
      ⟨get_spotify_client t, ApiMethod.current_user_saved_shows l o m⟩) ∧
    (∀ t a, opCall (OpArgs.check_current_user_saved_shows t a) =
      ⟨get_spotify_client t, ApiMethod.current_user_saved_shows_contains a⟩) ∧
    (∀ t l o m, opCall (OpArgs.get_current_user_saved_tracks t l o m) =
      ⟨get_spotify_client t, ApiMethod.current_user_saved_tracks l o m⟩) ∧
    (∀ t a, opCall (OpArgs.check_current_user_saved_tracks t a) =
      ⟨get_spotify_client t, ApiMethod.current_user_saved_tracks_contains a⟩) ∧
    (∀ t l o tr, opCall (OpArgs.get_current_user_top_artists t l o tr) =
      ⟨get_spotify_client t, ApiMethod.current_user_top_artists l o tr⟩) ∧
    (∀ t l o tr, opCall (OpArgs.get_current_user_top_tracks t l o tr) =
      ⟨get_spotify_client t, ApiMethod.current_user_top_tracks l o tr⟩) ∧
    (∀ t m ad, opCall (OpArgs.get_currently_playing t m ad) =
      ⟨get_spotify_client t, ApiMethod.currently_playing m ad⟩) ∧
    (∀ t, opCall (OpArgs.get_devices t) =
      ⟨get_spotify_client t, ApiMethod.devices⟩) ∧
    (∀ t a f l o m ad, opCall (OpArgs.get_playlist_items t a f l o m ad) =
      ⟨get_spotify_client t, ApiMethod.playlist_items a f l o m (if !ad.isEmpty then pySplit ad ',' else ["track", "episode"])⟩) ∧
    (∀ t, opCall (OpArgs.get_queue t) =
      ⟨get_spotify_client t, ApiMethod.queue⟩) ∧
    (∀ t q l o ty m, opCall (OpArgs.search_general t q l o ty m) =
      ⟨get_spotify_client t, ApiMethod.search q l o ty m⟩) ∧
    (∀ t q l o ty ms tl, opCall (OpArgs.search_markets t q l o ty ms tl) =
      ⟨get_spotify_client t, ApiMethod.search_markets q l o ty ms tl⟩) ∧
    (∀ t a b f m, opCall (OpArgs.get_user_playlist t a b f m) =
      ⟨get_spotify_client t, ApiMethod.user_playlist a b f m⟩) := by
  refine ⟨?_, ?_, ?_, ?_, ?_, ?_, ?_, ?_, ?_, ?_, ?_, ?_, ?_, ?_, ?_, ?_, ?_, ?_, ?_, ?_, ?_, ?_, ?_, ?_, ?_, ?_, ?_, ?_, ?_, ?_, ?_, ?_, ?_, ?_, ?_, ?_, ?_, ?_, ?_, ?_, ?_, ?_, ?_, ?_, ?_, ?_, ?_, ?_, ?_, ?_, ?_, ?_, ?_, ?_, ?_, ?_, ?_, ?_, ?_, ?_, ?_, ?_, ?_⟩ <;> intros <;> rfl

/-- C7: every invocation issues its one delegated call through the client
freshly constructed from its own token, and its result depends on the
remote service only through that single call — two services that agree on
that call give identical results, so no other call, handle, or local
state can influence or be retained by an invocation. -/
theorem claim_C7_single_call_fresh_client (op : OpArgs) :
    (opCall op).client = get_spotify_client op.token ∧
    ∀ (api₁ api₂ : Api), api₁ (opCall op) = api₂ (opCall op) →
      runOp api₁ op = runOp api₂ op := by
  refine ⟨opCall_client op, ?_⟩
  intro api₁ api₂ h
  rw [runOp_spec, runOp_spec, h]

/-- C7 witness: two different service behaviours that agree on the one
delegated call of `get_devices "tok"` give the same result. -/
theorem claim_C7_witness :
    (opCall (OpArgs.get_devices "tok")).client = get_spotify_client "tok" ∧
    runOp (fun _ => Except.ok JVal.null) (OpArgs.get_devices "tok") =
      runOp (fun c => if c.client.auth = "other" then Except.error "x" else Except.ok JVal.null)
        (OpArgs.get_devices "tok") :=
  ⟨(claim_C7_single_call_fresh_client (OpArgs.get_devices "tok")).1,
   (claim_C7_single_call_fresh_client (OpArgs.get_devices "tok")).2 _ _ rfl⟩

/-- C8: operations are pure functions of the token, the parameters and the
remote state, so repeating an invocation any number of times against an
unchanged remote state yields the same result every time and accumulates
nothing. -/
theorem claim_C8_idempotent_repetition (api : Api) (op : OpArgs) (n : Nat) :
    runN api op n = List.replicate n (runOp api op) := by
  induction n with
  | zero => rfl
  | succ k ih => simp [runN, ih, List.replicate_succ]

/-- C9 counterexample: `check_current_user_saved_tracks` is not a
placeholder operation, yet it does not return a `None` response unchanged
— it rewraps it as `{"saved": None}`. -/
theorem claim_C9_cex :
    check_current_user_saved_tracks (fun _ => Except.ok JVal.null) "tok" ["id1"] =
      JVal.obj [("saved", JVal.null)] ∧
    JVal.obj [("saved", JVal.null)] ≠ JVal.null :=
  ⟨rfl, fun h => JVal.noConfusion h⟩

/-- C9 (amended): exactly four operations — `get_audio_features`,
`get_current_playback`, `get_current_user_playing_track` and
`get_currently_playing` — substitute their placeholder, triggered by
truthiness (any falsy response yields the placeholder); every other
operation applies its fixed shape regardless of emptiness: passthrough
operations return the response unchanged even when it is `None`, and
rewrap operations wrap it under their fixed key even when it is `None`. -/
theorem claim_C9_amended_placeholder_ops (op : OpArgs) :
    ((opKind op).isPlaceholder = true ↔
      (opName op = "get_audio_features" ∨ opName op = "get_current_playback" ∨
       opName op = "get_current_user_playing_track" ∨ opName op = "get_currently_playing")) ∧
    ∀ (api : Api) (v : JVal), api (opCall op) = Except.ok v →
      (∀ k, opKind op = ResKind.placeholder k →
        runOp api op = if v.truthy then v else JVal.obj [(k, JVal.null)]) ∧
      (opKind op = ResKind.pass → runOp api op = v) ∧
      (∀ k, opKind op = ResKind.rewrap k → runOp api op = JVal.obj [(k, v)]) := by
  refine ⟨placeholder_names op, ?_⟩
  intro api v h
  have hr : runOp api op = applyKind (opKind op) v := by rw [runOp_spec, h]
  refine ⟨?_, ?_, ?_⟩
  · intro k hk
    rw [hr, hk]
    rfl
  · intro hk
    rw [hr, hk]
    rfl
  · intro k hk
    rw [hr, hk]
    rfl

/-- C9 witness: `get_audio_features` substitutes its placeholder on an
empty list, while `get_queue` passes `None` through unchanged. -/
theorem claim_C9_witness :
    runOp (fun _ => Except.ok (JVal.arr [])) (OpArgs.get_audio_features "tok" ["id1"]) =
      JVal.obj [("audio_features", JVal.null)] ∧
    runOp (fun _ => Except.ok JVal.null) (OpArgs.get_queue "tok") = JVal.null := by
  constructor
  · have hx := ((claim_C9_amended_placeholder_ops (OpArgs.get_audio_features "tok" ["id1"])).2
      (fun _ => Except.ok (JVal.arr [])) (JVal.arr []) rfl).1 "audio_features" rfl
    simpa using hx
  · exact ((claim_C9_amended_placeholder_ops (OpArgs.get_queue "tok")).2
      (fun _ => Except.ok JVal.null) JVal.null rfl).2.1 rfl

/-- C10: on every successful delegated call, `playlist_cover_image`
returns `{"images": r}` for the raw response `r` (including `None` and the
empty list) — a rewrap under a fixed key that is never the response
itself. -/
theorem claim_C10_always_rewraps (api : Api) (token playlist_id : String) (v : JVal)
    (h : api ⟨get_spotify_client token, ApiMethod.playlist_cover_image playlist_id⟩ =
      Except.ok v) :
    playlist_cover_image api token playlist_id = JVal.obj [("images", v)] ∧
    JVal.obj [("images", v)] ≠ v := by
  refine ⟨?_, JVal.obj_single_ne "images" v⟩
  simp [playlist_cover_image, h]

/-- C10 witness: a `None` response is rewrapped as `{"images": None}`,
not passed through. -/
theorem claim_C10_witness :
    playlist_cover_image (fun _ => Except.ok JVal.null) "tok" "pl" =
      JVal.obj [("images", JVal.null)] ∧
    JVal.obj [("images", JVal.null)] ≠ JVal.null :=
  claim_C10_always_rewraps (fun _ => Except.ok JVal.null) "tok" "pl" JVal.null rfl
